import Mathlib

/-!
Verification of the Candidate Pipeline Engine (recruiting subsystem).

This file shallowly embeds the recruiting pipeline sources
(`src/recruiting/identity.ts`, `src/recruiting/scoring.ts`, `src/recruiting/config.ts`,
`src/recruiting/store.ts`, `src/recruiting/pipeline.ts`, `src/recruiting/external.ts`)
in Lean and proves the claims of the specification against the embedding.

Embedding conventions:
* JavaScript numbers are embedded as `ℚ` (exact rational arithmetic; non-finite
  doubles `NaN`/`Infinity` are not representable and are noted where the source
  tests `Number.isFinite`).
* `string | null | undefined` values are embedded as `Option String`; `null` and
  `undefined` are conflated (the sources only distinguish them via `??`/truthiness,
  both of which treat them alike; truthiness additionally treats `""` as false,
  which is modelled explicitly).
* The SQLite tables of `CandidateStore` are embedded as Lean lists of row
  structures inside a `StoreState`; SQL statements become pure functions on that
  state.  `UNIQUE` constraint violations of plain `INSERT` statements become
  `Except.error` values, mirroring the exception thrown by `node:sqlite`.
* Collaborator calls (the Unipile LinkedIn client, web search and web fetch) are
  out-of-repo components; their (post-retry) outcomes enter the model as oracle
  values in a `RunEnv` environment, quantifying over every collaborator behaviour.
* Timestamps (`Date.now()`) enter as explicit `now : Nat` parameters.
-/

/-! ## JavaScript primitive helpers -/

/-- List-level both-sided whitespace trim.  Models `String.prototype.trim` for the
ASCII whitespace actually appearing in the sources. -/
def trimChars (l : List Char) : List Char :=
  ((l.dropWhile Char.isWhitespace).reverse.dropWhile Char.isWhitespace).reverse

/-- JavaScript `value.trim()`. -/
def jsTrim (s : String) : String :=
  ⟨trimChars s.data⟩

/-- JavaScript `value.toLowerCase()` (ASCII case folding, which covers every
string compared by the sources). -/
def lowerStr (s : String) : String :=
  ⟨s.data.map Char.toLower⟩

/-- JavaScript truthiness of a `string | null | undefined` value: `null`,
`undefined` and `""` are falsy. -/
def strTruthy : Option String → Bool
  | none => false
  | some s => s ≠ ""

/-- Whether `pat` occurs at the start of `l`. -/
def charsStart : List Char → List Char → Bool
  | [], _ => true
  | _ :: _, [] => false
  | p :: ps, c :: cs => p == c && charsStart ps cs

/-- Whether `pat` occurs contiguously anywhere in the second list.  Models
JavaScript `haystack.includes(pat)`. -/
def charsContain (pat : List Char) : List Char → Bool
  | [] => charsStart pat []
  | c :: cs => charsStart pat (c :: cs) || charsContain pat cs

/-- JavaScript `haystack.includes(needle)` on strings. -/
def strContains (hay needle : String) : Bool :=
  charsContain needle.data hay.data

/-- JavaScript `Math.round`: round half toward positive infinity. -/
def jsRound (q : ℚ) : ℤ :=
  ⌊q + 1 / 2⌋

/-- JavaScript `Math.trunc`: round toward zero. -/
def jsTrunc (q : ℚ) : ℤ :=
  if q < 0 then ⌈q⌉ else ⌊q⌋

/-- JavaScript `Math.ceil`. -/
def jsCeil (q : ℚ) : ℤ :=
  ⌈q⌉

/-- `round3` from `src/recruiting/scoring.ts` (also inlined in
`src/recruiting/identity.ts`): `Math.round(value * 1000) / 1000`. -/
def round3 (value : ℚ) : ℚ :=
  ((jsRound (value * 1000) : ℤ) : ℚ) / 1000

/-- Rounding half away from zero to three decimals, exactly as the specification
words it ("Stable rounding: half-away-from-zero to 3 decimals").  Stated from the
spec so that it can be compared with the source's `round3`. -/
def specRound3 (q : ℚ) : ℚ :=
  if q < 0 then -(((⌊-q * 1000 + 1 / 2⌋ : ℤ) : ℚ) / 1000)
  else ((⌊q * 1000 + 1 / 2⌋ : ℤ) : ℚ) / 1000

/-- `clamp01` from `src/recruiting/scoring.ts`.  (`Number.isFinite` returning
false, i.e. the `NaN`/`Infinity` branch yielding `0`, has no preimage in the
rational embedding.) -/
def clamp01 (value : ℚ) : ℚ :=
  min 1 (max 0 value)

/-! ## Identity resolver — `src/recruiting/identity.ts` -/

/-- `IdentityBand` from `src/recruiting/types.ts`. -/
inductive IdentityBand
  | CONFIRMED
  | HIGH
  | MEDIUM
  | LOW
deriving DecidableEq

/-- `IdentityResolution` from `src/recruiting/types.ts`. -/
structure IdentityResolution where
  confidence : ℚ
  band : IdentityBand
  shortlistEligible : Bool
  reasons : List String
deriving DecidableEq

/-- LinkedIn half of `IdentityResolutionInput` (fields used by the resolver and
supplied by the pipeline). -/
structure LinkedinIdentityInput where
  providerId : Option String
  publicIdentifier : Option String
  profileUrl : Option String
  name : Option String
  employer : Option String
  location : Option String
deriving DecidableEq

/-- GitHub half of `IdentityResolutionInput`. -/
structure GithubIdentityInput where
  handle : Option String
  url : Option String
  profileLinkedinUrl : Option String
  employer : Option String
  location : Option String
deriving DecidableEq

/-- X half of `IdentityResolutionInput`. -/
structure XIdentityInput where
  handle : Option String
  url : Option String
  profileLinkedinUrl : Option String
deriving DecidableEq

/-- Personal-site half of `IdentityResolutionInput`. -/
structure PersonalSiteIdentityInput where
  url : Option String
  linkedinUrl : Option String
  githubUrl : Option String
  xUrl : Option String
deriving DecidableEq

/-- `IdentityResolutionInput` from `src/recruiting/types.ts`. -/
structure IdentityResolutionInput where
  linkedin : LinkedinIdentityInput
  github : Option GithubIdentityInput
  x : Option XIdentityInput
  personalSite : Option PersonalSiteIdentityInput
deriving DecidableEq

/-- `normalizeUrl` from `src/recruiting/identity.ts`: trim, lowercase, strip a
single trailing slash; empty/absent input normalises to `null`. -/
def normalizeUrl : Option String → Option String
  | none => none
  | some v =>
    if v = "" then none
    else
      let trimmed := lowerStr (jsTrim v)
      if trimmed = "" then none
      else if trimmed.data.getLast? = some '/' then some ⟨trimmed.data.dropLast⟩
      else some trimmed

/-- `includesLinkedinUrl` from `src/recruiting/identity.ts`. -/
def includesLinkedinUrl (value linkedinUrl : Option String) : Bool :=
  if strTruthy value && strTruthy linkedinUrl then
    normalizeUrl value == linkedinUrl
  else false

/-- `resolveBand` from `src/recruiting/identity.ts`. -/
def resolveBand (confidence : ℚ) : IdentityBand :=
  if confidence ≥ 0.9 then .CONFIRMED
  else if confidence ≥ 0.8 then .HIGH
  else if confidence ≥ 0.6 then .MEDIUM
  else .LOW

/-- Rule 1 condition of `resolveIdentity`: a direct profile link back to the
candidate's LinkedIn URL. -/
def identityRule1 (input : IdentityResolutionInput) : Bool :=
  let linkedinUrl := normalizeUrl input.linkedin.profileUrl
  includesLinkedinUrl (normalizeUrl (input.github.bind (·.profileLinkedinUrl))) linkedinUrl ||
    includesLinkedinUrl (normalizeUrl (input.x.bind (·.profileLinkedinUrl))) linkedinUrl ||
    includesLinkedinUrl (normalizeUrl (input.personalSite.bind (·.linkedinUrl))) linkedinUrl

/-- Rule 2 condition of `resolveIdentity`: reverse link through the personal
site. -/
def identityRule2 (input : IdentityResolutionInput) : Bool :=
  let linkedinUrl := normalizeUrl input.linkedin.profileUrl
  let githubUrl := normalizeUrl (input.github.bind (·.url))
  let xUrl := normalizeUrl (input.x.bind (·.url))
  let siteGithub := normalizeUrl (input.personalSite.bind (·.githubUrl))
  let siteX := normalizeUrl (input.personalSite.bind (·.xUrl))
  strTruthy linkedinUrl &&
    ((strTruthy githubUrl && siteGithub == githubUrl) ||
      (strTruthy xUrl && siteX == xUrl))

/-- `sameEmployer` truthy chain in `resolveIdentity`. -/
def identitySameEmployer (input : IdentityResolutionInput) : Bool :=
  strTruthy input.linkedin.employer &&
    strTruthy (input.github.bind (·.employer)) &&
    (lowerStr (jsTrim (input.linkedin.employer.getD "")) ==
      lowerStr (jsTrim ((input.github.bind (·.employer)).getD "")))

/-- `sameLocation` truthy chain in `resolveIdentity`. -/
def identitySameLocation (input : IdentityResolutionInput) : Bool :=
  strTruthy input.linkedin.location &&
    strTruthy (input.github.bind (·.location)) &&
    (lowerStr (jsTrim (input.linkedin.location.getD "")) ==
      lowerStr (jsTrim ((input.github.bind (·.location)).getD "")))

/-- `handlePatternMatch` in `resolveIdentity`. -/
def identityHandleMatch (input : IdentityResolutionInput) : Bool :=
  strTruthy ((input.github.bind (·.handle)).map jsTrim) &&
    strTruthy ((input.x.bind (·.handle)).map jsTrim) &&
    ((input.github.bind (·.handle)).map (fun h => lowerStr (jsTrim h)) ==
      (input.x.bind (·.handle)).map (fun h => lowerStr (jsTrim h)))

/-- `resolveIdentity` from `src/recruiting/identity.ts`.  The mutable
`score`/`reasons` accumulation is threaded through `let` bindings in source
order. -/
def resolveIdentity (input : IdentityResolutionInput) : IdentityResolution :=
  let r1 := identityRule1 input
  let r2 := identityRule2 input
  let strong := identitySameEmployer input && identitySameLocation input &&
    identityHandleMatch input
  let partial_ := (identitySameEmployer input && identitySameLocation input) ||
    (identitySameEmployer input && identityHandleMatch input)
  let score1 : ℚ := if r1 then max 0 0.95 else 0
  let reasons1 : List String := if r1 then ["direct_profile_link"] else []
  let score2 : ℚ := if r2 then max score1 0.9 else score1
  let reasons2 : List String :=
    if r2 then reasons1 ++ ["reverse_link_via_site"] else reasons1
  let score3 : ℚ :=
    if strong then max score2 0.82
    else if partial_ then max score2 0.7
    else score2
  let reasons3 : List String :=
    if strong then reasons2 ++ ["strong_context_employer_location_handle"]
    else if partial_ then reasons2 ++ ["context_partial_match"]
    else reasons2
  let reasons4 : List String :=
    if score3 = 0 then reasons3 ++ ["unconfirmed_no_strong_match"] else reasons3
  let confidence := round3 score3
  let band := resolveBand confidence
  { confidence := confidence
    band := band
    shortlistEligible := band == .CONFIRMED || band == .HIGH
    reasons := reasons4 }

/-! ## Candidate scorer — `src/recruiting/scoring.ts` -/

/-- Structured stand-ins for the `details` JSON blobs attached to signals. -/
inductive SignalDetails
  | skills (skills : List String)
  | url (url : String)
deriving DecidableEq

/-- `CandidateSignal` from `src/recruiting/types.ts`. -/
structure CandidateSignal where
  key : String
  value : Option String
  numericValue : Option ℚ
  source : String
  details : Option SignalDetails
deriving DecidableEq

/-- `CandidateEvidenceLink` from `src/recruiting/types.ts`. -/
structure CandidateEvidenceLink where
  url : String
  title : Option String
  source : String
  relevance : Option ℚ
deriving DecidableEq

/-- `CandidateScoreBreakdown` from `src/recruiting/types.ts`. -/
structure CandidateScoreBreakdown where
  builder_activity : ℚ
  ai_native_evidence : ℚ
  technical_depth : ℚ
  role_fit : ℚ
  identity_confidence : ℚ
deriving DecidableEq

/-- `CandidateScore` from `src/recruiting/types.ts`. -/
structure CandidateScore where
  total : ℚ
  shortlistEligible : Bool
  breakdown : CandidateScoreBreakdown
  concerns : List String
  outreachAngle : String
deriving DecidableEq

/-- `scoreFromSignals` from `src/recruiting/scoring.ts`: maximum finite numeric
value among the signals with the given key, clamped to `[0, 1]`; `0` when none. -/
def scoreFromSignals (signals : List CandidateSignal) (key : String) : ℚ :=
  let values := (signals.filter (fun s => s.key == key)).filterMap (·.numericValue)
  match values with
  | [] => 0
  | v :: vs => clamp01 (vs.foldl max v)

/-- `hasAiEvidence` from `src/recruiting/scoring.ts`. -/
def hasAiEvidence (evidence : List CandidateEvidenceLink) : Bool :=
  let keywords := ["codex", "claude code", "mcp", "agent", "agents", "automation"]
  evidence.any fun item =>
    let haystack := lowerStr ((item.title.getD "") ++ " " ++ item.url)
    keywords.any fun keyword => strContains haystack keyword

/-- Parameter record of `computeCandidateScore`. -/
structure ComputeScoreParams where
  signals : List CandidateSignal
  identity : IdentityResolution
  evidence : List CandidateEvidenceLink
  openToWork : Option Bool
deriving DecidableEq

/-- `computeCandidateScore` from `src/recruiting/scoring.ts`.  The weights are
the source's `WEIGHTS` constant: builder_activity 0.25, ai_native_evidence 0.25,
technical_depth 0.2, role_fit 0.2, identity_confidence 0.1. -/
def computeCandidateScore (p : ComputeScoreParams) : CandidateScore :=
  let builderActivity := scoreFromSignals p.signals "builder_activity"
  let aiNative := max (scoreFromSignals p.signals "ai_native_evidence")
    (if hasAiEvidence p.evidence then 0.7 else 0)
  let technicalDepth := scoreFromSignals p.signals "technical_depth"
  let roleFit := scoreFromSignals p.signals "role_fit"
  let identityConfidence := clamp01 p.identity.confidence
  let breakdown : CandidateScoreBreakdown :=
    { builder_activity := round3 builderActivity
      ai_native_evidence := round3 aiNative
      technical_depth := round3 technicalDepth
      role_fit := round3 roleFit
      identity_confidence := round3 identityConfidence }
  let total := round3 (breakdown.builder_activity * 0.25 +
    breakdown.ai_native_evidence * 0.25 +
    breakdown.technical_depth * 0.2 +
    breakdown.role_fit * 0.2 +
    breakdown.identity_confidence * 0.1)
  let concerns : List String :=
    (if ¬p.identity.shortlistEligible then ["identity_unconfirmed"] else []) ++
      (if breakdown.builder_activity < 0.3 then ["low_recent_builder_activity"] else []) ++
      (if breakdown.ai_native_evidence < 0.3 then ["limited_ai_native_evidence"] else []) ++
      (if breakdown.role_fit < 0.3 then ["weak_role_fit"] else []) ++
      (if p.openToWork = some true then ["open_to_work_signal_recorded_no_penalty"] else [])
  let outreachAngle :=
    if breakdown.ai_native_evidence ≥ 0.6 then
      "Lead with AI-native shipping evidence and ask about current build velocity."
    else if breakdown.builder_activity ≥ 0.6 then
      "Lead with recent shipped work and invite a builder-focused conversation."
    else "Lead with role fit and verify current hands-on project scope."
  { total := total
    shortlistEligible := p.identity.shortlistEligible
    breakdown := breakdown
    concerns := concerns
    outreachAngle := outreachAngle }

/-! ## Resolved configuration — `src/recruiting/config.ts` -/

/-- `browserVerification.mode` union. -/
inductive BrowserVerificationMode
  | high_only
  | always
deriving DecidableEq

/-- Raw (unvalidated) recruiting configuration as read from the OpenClaw config
object.  `Option` fields are `undefined`-when-absent or non-numeric/non-string
values (the source's `typeof` guards). -/
structure RecruitingRawConfig where
  enabled : Bool
  minConfidenceForShortlist : Option ℚ
  targetCandidatesPerRole : Option ℚ
  defaultCadence : Option String
  browserVerificationEnabled : Bool
  browserVerificationMode : Option String
  promotedTarget : Option ℚ
  reviewedTarget : Option ℚ
  verificationBudget : Option ℚ
  minProofLinks : Option ℚ
  allowUnverifiedPromotion : Bool
  g1Percentage : Option ℚ
  g2Percentage : Option ℚ

/-- `RecruitingConfig` from `src/recruiting/config.ts` after resolution.
`store.path` (a filesystem path) is omitted from the embedding; no verified
operation reads it. -/
structure RecruitingConfig where
  enabled : Bool
  minConfidenceForShortlist : ℚ
  targetCandidatesPerRole : ℤ
  defaultCadence : String
  browserVerificationEnabled : Bool
  browserVerificationMode : BrowserVerificationMode
  promotedTarget : ℤ
  reviewedTarget : ℤ
  verificationBudget : ℤ
  minProofLinks : ℤ
  allowUnverifiedPromotion : Bool
  g1Percentage : ℚ
  g2Percentage : ℚ
deriving DecidableEq

/-- `clampNumber` from `src/recruiting/config.ts`.  `undefined` or non-finite
input falls back; the non-finite branch has no rational preimage. -/
def clampNumber (value : Option ℚ) (lo hi fallback : ℚ) : ℚ :=
  match value with
  | none => fallback
  | some v => min hi (max lo v)

/-- `resolveRecruitingConfig` from `src/recruiting/config.ts`. -/
def resolveRecruitingConfig (raw : RecruitingRawConfig) : RecruitingConfig :=
  { enabled := raw.enabled
    minConfidenceForShortlist := clampNumber raw.minConfidenceForShortlist 0 1 0.8
    targetCandidatesPerRole := jsTrunc (clampNumber raw.targetCandidatesPerRole 1 2000 300)
    defaultCadence :=
      (if jsTrim (raw.defaultCadence.getD "") = "" then "0 6 * * *"
       else jsTrim (raw.defaultCadence.getD ""))
    browserVerificationEnabled := raw.browserVerificationEnabled
    browserVerificationMode :=
      (if lowerStr (jsTrim (raw.browserVerificationMode.getD "")) = "always" then .always
       else .high_only)
    promotedTarget := jsTrunc (clampNumber raw.promotedTarget 1 100 10)
    reviewedTarget := jsTrunc (clampNumber raw.reviewedTarget 1 200 30)
    verificationBudget := jsTrunc (clampNumber raw.verificationBudget 1 100 20)
    minProofLinks := jsTrunc (clampNumber raw.minProofLinks 1 10 2)
    allowUnverifiedPromotion := raw.allowUnverifiedPromotion
    g1Percentage := clampNumber raw.g1Percentage 0 1 0.6
    g2Percentage := clampNumber raw.g2Percentage 0 1 0.4 }

/-- A raw configuration with nothing configured: resolution yields every
default. -/
def rawConfigDefaults : RecruitingRawConfig :=
  { enabled := true
    minConfidenceForShortlist := none
    targetCandidatesPerRole := none
    defaultCadence := none
    browserVerificationEnabled := false
    browserVerificationMode := none
    promotedTarget := none
    reviewedTarget := none
    verificationBudget := none
    minProofLinks := none
    allowUnverifiedPromotion := false
    g1Percentage := none
    g2Percentage := none }

/-! ## Persistence store — `src/recruiting/store.ts`

Each SQLite table of `ensureSchema` becomes a list of row structures.  Rows are
kept in insertion order (SQLite rowid order), which is the order unqualified
`SELECT`s traverse.  `JSON.stringify`/`parseJson` round-trips of structured
blobs (`summary_json`, `reasons_json`, `breakdown_json`, `concerns_json`,
`proof_json`) are embedded by storing the structured value itself.  The
`daily_run_outputs` table is omitted: no verified operation touches it. -/

/-- `pipeline_runs.status` values. -/
inductive RunStatus
  | running
  | completed
  | failed
deriving DecidableEq

/-- `CandidateReviewStatus` from `src/recruiting/types.ts`. -/
inductive CandidateReviewStatus
  | new_review
  | under_verification
  | promoted_shortlist
  | rejected
  | deferred
deriving DecidableEq

/-- `VerificationOutcome` from `src/recruiting/types.ts`. -/
inductive VerificationOutcome
  | confirmed
  | rejected
  | inconclusive
deriving DecidableEq

/-- `sourceQueryMode` union from `src/recruiting/types.ts`. -/
inductive SourceQueryMode
  | default
  | broad
deriving DecidableEq

/-- `evidenceQueryMode` union from `src/recruiting/types.ts`. -/
inductive EvidenceQueryMode
  | default
  | strict
deriving DecidableEq

/-- `TalentSearchApi` union from `src/linkedin/search.ts` (collaborator type). -/
inductive TalentSearchApi
  | classic
  | recruiter
  | sales_navigator
deriving DecidableEq

/-- Keyword filter entries of `TalentSearchParams` (`role`, `skills`). -/
structure SearchFilter where
  keywords : Option String
  id : Option String
deriving DecidableEq

/-- Company filter entries of `TalentSearchParams`. -/
structure CompanyFilter where
  keywords : Option String
  id : Option String
  name : Option String
deriving DecidableEq

/-- `TalentSearchParams` (collaborator type from `src/linkedin/search.ts`),
restricted to the fields the pipeline reads. -/
structure TalentSearchParams where
  api : Option TalentSearchApi
  keywords : Option String
  role : Option (List SearchFilter)
  skills : Option (List SearchFilter)
  company : Option (List CompanyFilter)
  location : Option String
  industry : Option String
  network_distance : Option (List ℤ)
  accountId : Option String
deriving DecidableEq

/-- `CandidatePipelineCounts` from `src/recruiting/types.ts`. -/
structure CandidatePipelineCounts where
  sourced : Nat
  enriched : Nat
  enrichFailed : Nat
  externalDiscovered : Nat
  identityConfirmedHigh : Nat
  identityMediumLow : Nat
  shortlistEligible : Nat
deriving DecidableEq

/-- One aggregated message inside an `ErrorAggregate`. -/
structure StageTopMessage where
  message : String
  errorType : String
  count : Nat
deriving DecidableEq

/-- Per-stage error aggregate built by `buildStageErrors` in
`src/recruiting/pipeline.ts`. -/
structure ErrorAggregate where
  stage : String
  count : Nat
  topMessages : List StageTopMessage
deriving DecidableEq

/-- `CandidatePipelineSearchQueryUsed` from `src/recruiting/types.ts`. -/
structure CandidatePipelineSearchQueryUsed where
  api : TalentSearchApi
  keywords : Option String
  roleKeywords : List String
  skills : List String
  companyKeywords : List String
  location : Option String
  industry : Option String
  networkDistance : List ℤ
  pageSize : ℤ
  maxPages : ℤ
deriving DecidableEq

/-- The `modes` component of diagnostics. -/
structure DiagnosticsModes where
  sourceQueryMode : SourceQueryMode
  evidenceQueryMode : EvidenceQueryMode
deriving DecidableEq

/-- The `accountHealth` component of diagnostics. -/
structure AccountHealth where
  requestedAccountId : Option String
  resolvedAccountId : String
  unipileAccountId : Option String
  enabled : Bool
  apiKeySource : String
  missingCredentials : List String
  recruiterReady : Bool
deriving DecidableEq

/-- The `failure` component of diagnostics. -/
structure DiagnosticsFailure where
  stage : String
  message : String
  errorType : String
deriving DecidableEq

/-- `CandidatePipelineDiagnostics` from `src/recruiting/types.ts`. -/
structure CandidatePipelineDiagnostics where
  counts : CandidatePipelineCounts
  errorsByStage : List ErrorAggregate
  searchQueryUsed : CandidatePipelineSearchQueryUsed
  modes : DiagnosticsModes
  accountHealth : AccountHealth
  failure : Option DiagnosticsFailure
deriving DecidableEq

/-- Serialised `criteria_json` of a `run_roles` row: the spread role search
plus the mode markers (`source_query_mode`, `evidence_query_mode`). -/
structure RunCriteria where
  search : TalentSearchParams
  source_query_mode : SourceQueryMode
  evidence_query_mode : EvidenceQueryMode
deriving DecidableEq

/-- A row of `pipeline_runs`. -/
structure RunRow where
  id : String
  idempotencyKey : Option String
  status : RunStatus
  startedAt : Nat
  finishedAt : Option Nat
  targetCandidates : ℤ
  roleKey : String
  roleTitle : String
  config : Option RecruitingConfig
  summary : Option CandidatePipelineDiagnostics
deriving DecidableEq

/-- A row of `run_roles`. -/
structure RunRoleRow where
  runId : String
  roleKey : String
  roleTitle : String
  criteria : Option RunCriteria
  status : RunStatus
  startedAt : Nat
  finishedAt : Option Nat
deriving DecidableEq

/-- A row of `candidates` (`provider` is always `'linkedin'` and is left
implicit). -/
structure CandidateRow where
  id : String
  providerId : Option String
  publicIdentifier : Option String
  normalizedProfileUrlHash : Option String
  fullName : Option String
  headline : Option String
  location : Option String
  currentCompany : Option String
  currentRole : Option String
  firstSeenAt : Nat
  lastSeenAt : Nat
deriving DecidableEq

/-- A row of `candidate_identities`. -/
structure IdentityRow where
  candidateId : String
  platform : String
  handle : Option String
  url : Option String
  confidence : ℚ
  band : IdentityBand
  reasons : List String
  confirmed : Bool
  createdAt : Nat
  updatedAt : Nat
deriving DecidableEq

/-- A row of `candidate_signals`. -/
structure SignalRow where
  candidateId : String
  key : String
  value : Option String
  numericValue : Option ℚ
  observedAt : Nat
  source : String
  details : Option SignalDetails
deriving DecidableEq

/-- A row of `candidate_scores`. -/
structure ScoreRow where
  candidateId : String
  runId : String
  totalScore : ℚ
  breakdown : CandidateScoreBreakdown
  concerns : List String
  shortlistEligible : Bool
  outreachAngle : Option String
  createdAt : Nat
deriving DecidableEq

/-- A row of `candidate_evidence_links`. -/
structure EvidenceRow where
  candidateId : String
  runId : String
  url : String
  title : Option String
  source : String
  relevance : Option ℚ
  createdAt : Nat
deriving DecidableEq

/-- A row of `run_failures`. -/
structure FailureRow where
  runId : String
  step : String
  candidateRef : Option String
  errorType : String
  message : String
  retryable : Bool
  createdAt : Nat
deriving DecidableEq

/-- A row of `candidate_reviews`. -/
structure ReviewRow where
  candidateId : String
  runId : String
  status : CandidateReviewStatus
  priority : ℤ
  notes : Option String
  updatedBy : Option String
  createdAt : Nat
  updatedAt : Nat
deriving DecidableEq

/-- A row of `candidate_verifications`. -/
structure VerificationRow where
  candidateId : String
  runId : String
  method : String
  outcome : VerificationOutcome
  identityConfidenceBefore : Option ℚ
  identityConfidenceAfter : Option ℚ
  proofLinks : List String
  notes : Option String
  createdAt : Nat
deriving DecidableEq

/-- A row of `candidate_promotions`. -/
structure PromotionRow where
  candidateId : String
  runId : String
  promotionReason : String
  confidenceOverride : Option ℚ
  outreachAngle : Option String
  proofLinks : List String
  promotedAt : Nat
  promotedBy : Option String
deriving DecidableEq

/-- The whole database owned by `CandidateStore`. -/
structure StoreState where
  runs : List RunRow
  runRoles : List RunRoleRow
  candidates : List CandidateRow
  sourceRecords : List (String × String × String × ℤ)
  identities : List IdentityRow
  signals : List SignalRow
  scores : List ScoreRow
  evidence : List EvidenceRow
  failures : List FailureRow
  reviews : List ReviewRow
  verifications : List VerificationRow
  promotions : List PromotionRow
deriving DecidableEq

/-- SQLite errors surfaced by `node:sqlite` (`StatementSync.run` throws on a
violated constraint).  The argument names the violated unique index. -/
inductive SqlErr
  | uniqueConstraint (index : String)
deriving DecidableEq

/-- SQL `col = ?` equality: comparisons against `NULL` are never true. -/
def sqlEq : Option String → Option String → Bool
  | some a, some b => a == b
  | _, _ => false

/-- `ORDER BY ts DESC LIMIT 1` over a filtered list: keep the element with the
largest timestamp (the first such element on ties, which SQLite leaves
unspecified). -/
def pickLatestBy (ts : α → Nat) : List α → Option α
  | [] => none
  | a :: l =>
    match pickLatestBy ts l with
    | none => some a
    | some b => if ts b > ts a then some b else some a

/-- The `SELECT id, status FROM pipeline_runs WHERE idempotency_key = ? ORDER BY
started_at DESC LIMIT 1` lookup inside `beginRun`. -/
def mostRecentRunByKey (runs : List RunRow) (key : String) : Option RunRow :=
  pickLatestBy (·.startedAt) (runs.filter fun r => r.idempotencyKey == some key)

/-- Parameters of `CandidateStore.beginRun`. -/
structure BeginRunParams where
  runId : Option String
  idempotencyKey : Option String
  roleKey : String
  roleTitle : String
  targetCandidates : ℤ
  config : Option RecruitingConfig
  criteria : Option RunCriteria
deriving DecidableEq

/-- Result record of `CandidateStore.beginRun`. -/
structure BeginRunResult where
  runId : String
  resumed : Bool
deriving DecidableEq

/-- `CandidateStore.beginRun`.  When the idempotency key is truthy and the most
recent run holding it is `running` or `completed`, that run is returned with
`resumed = true` and nothing is written.  Otherwise a new `pipeline_runs` row
(status `'running'`) and a `run_roles` row are inserted; `freshId` stands for
`crypto.randomUUID()`.  The inserts enforce the schema's `PRIMARY KEY (id)`,
`UNIQUE (idempotency_key)` and `UNIQUE (run_id, role_key)` constraints from
`ensureSchema`, surfacing a violation as the `SqlErr` exception `node:sqlite`
throws.  (Both constraint checks are performed before either row is written;
this is only observable when the fresh run id itself collides, which cannot
happen for a fresh UUID.) -/
def beginRun (st : StoreState) (now : Nat) (freshId : String) (p : BeginRunParams) :
    Except SqlErr (BeginRunResult × StoreState) :=
  let existing :=
    if strTruthy p.idempotencyKey then
      mostRecentRunByKey st.runs (p.idempotencyKey.getD "")
    else none
  if (match existing with
      | some r => r.status == RunStatus.running || r.status == RunStatus.completed
      | none => false) then
    .ok ({ runId := (existing.map (·.id)).getD "", resumed := true }, st)
  else
    let runId := if strTruthy p.runId then p.runId.getD "" else freshId
    if st.runs.any (fun r => r.id == runId) then
      .error (.uniqueConstraint "pipeline_runs.id")
    else if p.idempotencyKey ≠ none ∧
        st.runs.any (fun r => r.idempotencyKey == p.idempotencyKey) then
      .error (.uniqueConstraint "pipeline_runs.idempotency_key")
    else if st.runRoles.any (fun rr => rr.runId == runId && rr.roleKey == p.roleKey) then
      .error (.uniqueConstraint "run_roles.run_id_role_key")
    else
      let runRow : RunRow :=
        { id := runId
          idempotencyKey := p.idempotencyKey
          status := .running
          startedAt := now
          finishedAt := none
          targetCandidates := p.targetCandidates
          roleKey := p.roleKey
          roleTitle := p.roleTitle
          config := p.config
          summary := none }
      let roleRow : RunRoleRow :=
        { runId := runId
          roleKey := p.roleKey
          roleTitle := p.roleTitle
          criteria := p.criteria
          status := .running
          startedAt := now
          finishedAt := none }
      .ok ({ runId := runId, resumed := false },
        { st with runs := st.runs ++ [runRow], runRoles := st.runRoles ++ [roleRow] })

/-- `CandidateStore.markRunCompleted`. -/
def markRunCompleted (st : StoreState) (now : Nat) (runId : String)
    (summary : Option CandidatePipelineDiagnostics) : StoreState :=
  { st with
    runs := st.runs.map fun r =>
      if r.id = runId then
        { r with status := .completed, finishedAt := some now, summary := summary }
      else r
    runRoles := st.runRoles.map fun rr =>
      if rr.runId = runId then { rr with status := .completed, finishedAt := some now }
      else rr }

/-- `CandidateStore.markRunFailed`. -/
def markRunFailed (st : StoreState) (now : Nat) (runId : String)
    (summary : Option CandidatePipelineDiagnostics) : StoreState :=
  { st with
    runs := st.runs.map fun r =>
      if r.id = runId then
        { r with status := .failed, finishedAt := some now, summary := summary }
      else r
    runRoles := st.runRoles.map fun rr =>
      if rr.runId = runId then { rr with status := .failed, finishedAt := some now }
      else rr }

/-- Parameters of `CandidateStore.recordFailure`. -/
structure RecordFailureParams where
  runId : String
  step : String
  candidateRef : Option String
  errorType : String
  message : String
  retryable : Bool
deriving DecidableEq

/-- `CandidateStore.recordFailure`: plain append into `run_failures`. -/
def recordFailure (st : StoreState) (now : Nat) (p : RecordFailureParams) : StoreState :=
  { st with
    failures := st.failures ++
      [{ runId := p.runId
         step := p.step
         candidateRef := p.candidateRef
         errorType := p.errorType
         message := p.message
         retryable := p.retryable
         createdAt := now }] }

/-- `normalizeProfileUrl` from `src/recruiting/store.ts`: trim, lowercase, drop
the query string, strip a trailing slash. -/
def normalizeProfileUrl : Option String → Option String
  | none => none
  | some v =>
    if v = "" then none
    else
      let trimmed := lowerStr (jsTrim v)
      if trimmed = "" then none
      else
        let withoutQuery : List Char := trimmed.data.takeWhile (· ≠ '?')
        if withoutQuery.getLast? = some '/' then some ⟨withoutQuery.dropLast⟩
        else some ⟨withoutQuery⟩

/-- `hashUrl` from `src/recruiting/store.ts` computes a SHA-256 hex digest.  The
digest is embedded as injective tagging: the verified properties only ever
compare hashes for equality, and SHA-256 is collision-free for every input the
store can see in this model. -/
def hashUrl (value : String) : String :=
  "sha256:" ++ value

/-- `buildCandidateId` from `src/recruiting/store.ts`; `uuid` stands for
`crypto.randomUUID()`. -/
def buildCandidateId (providerId publicIdentifier hash : Option String)
    (uuid : String) : String :=
  if strTruthy providerId then "li:" ++ providerId.getD ""
  else if strTruthy publicIdentifier then "li_pub:" ++ publicIdentifier.getD ""
  else if strTruthy hash then "li_url:" ++ ⟨(hash.getD "").data.take 24⟩
  else "li_rand:" ++ uuid

/-- `CandidateRecord` from `src/recruiting/types.ts` (upsert input). -/
structure CandidateRecord where
  providerId : Option String
  publicIdentifier : Option String
  profileUrl : Option String
  name : Option String
  headline : Option String
  location : Option String
  currentCompany : Option String
  currentRole : Option String
deriving DecidableEq

/-- One column of the candidates table is duplicate-free among non-`NULL`
values (SQLite `UNIQUE` treats `NULL`s as distinct). -/
def colDupFree (f : CandidateRow → Option String) : List CandidateRow → Bool
  | [] => true
  | c :: rest =>
    (f c == none || rest.all fun d => f d != f c) && colDupFree f rest

/-- All three dedup `UNIQUE` constraints of the `candidates` table hold. -/
def candidatesUniqueOk (l : List CandidateRow) : Bool :=
  colDupFree (·.providerId) l && colDupFree (·.publicIdentifier) l &&
    colDupFree (·.normalizedProfileUrlHash) l

/-- `CandidateStore.upsertCandidate`: resolve an existing candidate through the
three dedup paths (in table order, `LIMIT 1`), then `INSERT … ON CONFLICT(id) DO
UPDATE`.  A resulting violation of one of the three `UNIQUE` pairs (possible when
the statement links keys already owned by a different row) throws. -/
def upsertCandidate (st : StoreState) (now : Nat) (uuid : String)
    (input : CandidateRecord) : Except SqlErr ((String × Option String) × StoreState) :=
  let normalizedProfileUrl := normalizeProfileUrl input.profileUrl
  let normalizedProfileUrlHash := normalizedProfileUrl.map hashUrl
  let existing := st.candidates.find? fun c =>
    sqlEq c.providerId input.providerId || sqlEq c.publicIdentifier input.publicIdentifier ||
      sqlEq c.normalizedProfileUrlHash normalizedProfileUrlHash
  let candidateId :=
    match existing with
    | some c => c.id
    | none =>
      buildCandidateId input.providerId input.publicIdentifier normalizedProfileUrlHash uuid
  let updated :=
    if st.candidates.any (fun c => c.id == candidateId) then
      st.candidates.map fun c =>
        if c.id = candidateId then
          { c with
            providerId := input.providerId
            publicIdentifier := input.publicIdentifier
            normalizedProfileUrlHash := normalizedProfileUrlHash
            fullName := input.name
            headline := input.headline
            location := input.location
            currentCompany := input.currentCompany
            currentRole := input.currentRole
            lastSeenAt := now }
        else c
    else
      st.candidates ++
        [{ id := candidateId
           providerId := input.providerId
           publicIdentifier := input.publicIdentifier
           normalizedProfileUrlHash := normalizedProfileUrlHash
           fullName := input.name
           headline := input.headline
           location := input.location
           currentCompany := input.currentCompany
           currentRole := input.currentRole
           firstSeenAt := now
           lastSeenAt := now }]
  if candidatesUniqueOk updated then
    .ok ((candidateId, normalizedProfileUrlHash), { st with candidates := updated })
  else .error (.uniqueConstraint "candidates.dedup")

/-- `CandidateStore.addSourceRecord`: `INSERT OR IGNORE` keyed by
`(candidate_id, run_id, source, source_rank)`.  Only the key quadruple is
retained in the embedding; the `raw_json` snapshot is opaque and never read
back. -/
def addSourceRecord (st : StoreState) (candidateId runId source : String)
    (sourceRank : ℤ) : StoreState :=
  if st.sourceRecords.any (fun r =>
      r.1 == candidateId && r.2.1 == runId && r.2.2.1 == source && r.2.2.2 == sourceRank) then
    st
  else { st with sourceRecords := st.sourceRecords ++ [(candidateId, runId, source, sourceRank)] }

/-- Parameters of `CandidateStore.upsertIdentity`. -/
structure UpsertIdentityParams where
  candidateId : String
  platform : String
  handle : Option String
  url : Option String
  resolution : IdentityResolution
deriving DecidableEq

/-- `CandidateStore.upsertIdentity`: `INSERT … ON CONFLICT(candidate_id,
platform) DO UPDATE` (the update keeps `created_at`). -/
def upsertIdentity (st : StoreState) (now : Nat) (p : UpsertIdentityParams) : StoreState :=
  if st.identities.any (fun i => i.candidateId == p.candidateId && i.platform == p.platform) then
    { st with
      identities := st.identities.map fun i =>
        if i.candidateId = p.candidateId ∧ i.platform = p.platform then
          { i with
            handle := p.handle
            url := p.url
            confidence := p.resolution.confidence
            band := p.resolution.band
            reasons := p.resolution.reasons
            confirmed := p.resolution.shortlistEligible
            updatedAt := now }
        else i }
  else
    { st with
      identities := st.identities ++
        [{ candidateId := p.candidateId
           platform := p.platform
           handle := p.handle
           url := p.url
           confidence := p.resolution.confidence
           band := p.resolution.band
           reasons := p.resolution.reasons
           confirmed := p.resolution.shortlistEligible
           createdAt := now
           updatedAt := now }] }

/-- `CandidateStore.addSignals`: a transaction of plain inserts into
`candidate_signals` (no unique constraints; the foreign keys hold in every state
the pipeline reaches, so the rollback path is unreachable). -/
def addSignals (st : StoreState) (now : Nat) (candidateId : String)
    (signals : List CandidateSignal) : StoreState :=
  { st with
    signals := st.signals ++ signals.map fun s =>
      { candidateId := candidateId
        key := s.key
        value := s.value
        numericValue := s.numericValue
        observedAt := now
        source := s.source
        details := s.details } }

/-- `CandidateStore.upsertScore`: `INSERT … ON CONFLICT(candidate_id, run_id) DO
UPDATE` (this update also refreshes `created_at`). -/
def upsertScore (st : StoreState) (now : Nat) (candidateId runId : String)
    (score : CandidateScore) : StoreState :=
  if st.scores.any (fun s => s.candidateId == candidateId && s.runId == runId) then
    { st with
      scores := st.scores.map fun s =>
        if s.candidateId = candidateId ∧ s.runId = runId then
          { s with
            totalScore := score.total
            breakdown := score.breakdown
            concerns := score.concerns
            shortlistEligible := score.shortlistEligible
            outreachAngle := some score.outreachAngle
            createdAt := now }
        else s }
  else
    { st with
      scores := st.scores ++
        [{ candidateId := candidateId
           runId := runId
           totalScore := score.total
           breakdown := score.breakdown
           concerns := score.concerns
           shortlistEligible := score.shortlistEligible
           outreachAngle := some score.outreachAngle
           createdAt := now }] }

/-- `CandidateStore.addEvidenceLinks`: a transaction of `INSERT OR IGNORE`
statements keyed by `(candidate_id, run_id, url)`, applied in order so the batch
also dedupes against itself. -/
def addEvidenceLinks (st : StoreState) (now : Nat) (candidateId runId : String)
    (links : List CandidateEvidenceLink) : StoreState :=
  links.foldl
    (fun acc link =>
      if acc.evidence.any (fun e =>
          e.candidateId == candidateId && e.runId == runId && e.url == link.url) then
        acc
      else
        { acc with
          evidence := acc.evidence ++
            [{ candidateId := candidateId
               runId := runId
               url := link.url
               title := link.title
               source := link.source
               relevance := link.relevance
               createdAt := now }] })
    st

/-- `CandidatePipelineStatus` from `src/recruiting/types.ts`, as produced by
`CandidateStore.getRunStatus`. -/
structure CandidatePipelineStatus where
  runId : String
  status : RunStatus
  startedAt : Nat
  finishedAt : Option Nat
  targetCandidates : ℤ
  roleKey : String
  roleTitle : String
  diagnostics : Option CandidatePipelineDiagnostics
deriving DecidableEq

/-- `CandidateStore.getRunStatus`. -/
def getRunStatus (st : StoreState) (runId : String) : Option CandidatePipelineStatus :=
  (st.runs.find? (fun r => r.id == runId)).map fun r =>
    { runId := r.id
      status := r.status
      startedAt := r.startedAt
      finishedAt := r.finishedAt
      targetCandidates := r.targetCandidates
      roleKey := r.roleKey
      roleTitle := r.roleTitle
      diagnostics := r.summary }

/-- Parameters of `CandidateStore.upsertReviewStatus`. -/
structure UpsertReviewParams where
  candidateId : String
  runId : String
  status : CandidateReviewStatus
  priority : Option ℤ
  notes : Option String
  updatedBy : Option String
deriving DecidableEq

/-- `CandidateStore.upsertReviewStatus`: `INSERT … ON CONFLICT(candidate_id,
run_id) DO UPDATE SET status, priority, notes, updated_by, updated_at`
(`created_at` is kept on conflict; absent `priority` defaults to `0`). -/
def upsertReviewStatus (st : StoreState) (now : Nat) (p : UpsertReviewParams) : StoreState :=
  if st.reviews.any (fun r => r.candidateId == p.candidateId && r.runId == p.runId) then
    { st with
      reviews := st.reviews.map fun r =>
        if r.candidateId = p.candidateId ∧ r.runId = p.runId then
          { r with
            status := p.status
            priority := p.priority.getD 0
            notes := p.notes
            updatedBy := p.updatedBy
            updatedAt := now }
        else r }
  else
    { st with
      reviews := st.reviews ++
        [{ candidateId := p.candidateId
           runId := p.runId
           status := p.status
           priority := p.priority.getD 0
           notes := p.notes
           updatedBy := p.updatedBy
           createdAt := now
           updatedAt := now }] }

/-- `CandidateStore.getReviewStatus`. -/
def getReviewStatus (st : StoreState) (candidateId runId : String) : Option ReviewRow :=
  st.reviews.find? fun r => r.candidateId == candidateId && r.runId == runId

/-- Parameters of `CandidateStore.submitVerification`. -/
structure StoreSubmitVerificationParams where
  candidateId : String
  runId : String
  method : String
  outcome : VerificationOutcome
  identityConfidenceBefore : Option ℚ
  identityConfidenceAfter : Option ℚ
  proofLinks : List String
  notes : Option String
deriving DecidableEq

/-- `CandidateStore.submitVerification`: plain append into
`candidate_verifications`. -/
def storeSubmitVerification (st : StoreState) (now : Nat)
    (p : StoreSubmitVerificationParams) : StoreState :=
  { st with
    verifications := st.verifications ++
      [{ candidateId := p.candidateId
         runId := p.runId
         method := p.method
         outcome := p.outcome
         identityConfidenceBefore := p.identityConfidenceBefore
         identityConfidenceAfter := p.identityConfidenceAfter
         proofLinks := p.proofLinks
         notes := p.notes
         createdAt := now }] }

/-- `CandidateStore.getPromotion`: most recent promotion for the
`(candidate, run)` pair, `null` when none exists. -/
def getPromotion (st : StoreState) (candidateId runId : String) : Option PromotionRow :=
  pickLatestBy (·.promotedAt)
    (st.promotions.filter fun p => p.candidateId == candidateId && p.runId == runId)

/-- Parameters of `CandidateStore.promoteCandidate`. -/
structure StorePromoteParams where
  candidateId : String
  runId : String
  promotionReason : String
  confidenceOverride : Option ℚ
  outreachAngle : Option String
  proofLinks : List String
  promotedBy : Option String
deriving DecidableEq

/-- `CandidateStore.promoteCandidate`: append one `candidate_promotions` row and
upsert the `(candidate, run)` review to `promoted_shortlist`. -/
def storePromoteCandidate (st : StoreState) (now : Nat) (p : StorePromoteParams) : StoreState :=
  let st1 :=
    { st with
      promotions := st.promotions ++
        [{ candidateId := p.candidateId
           runId := p.runId
           promotionReason := p.promotionReason
           confidenceOverride := p.confidenceOverride
           outreachAngle := p.outreachAngle
           proofLinks := p.proofLinks
           promotedAt := now
           promotedBy := p.promotedBy }] }
  upsertReviewStatus st1 now
    { candidateId := p.candidateId
      runId := p.runId
      status := .promoted_shortlist
      priority := none
      notes := none
      updatedBy := p.promotedBy }

/-! ### Read side: `CandidateStore.getResults` and the `getCandidate` lookup -/

/-- One `topEvidence` entry of a result row (the `created_at` column is read for
ordering but not returned). -/
structure TopEvidenceEntry where
  url : String
  title : Option String
  source : String
  relevance : Option ℚ
deriving DecidableEq

/-- `CandidatePipelineResultRow` from `src/recruiting/types.ts`. -/
structure CandidatePipelineResultRow where
  candidateId : String
  name : String
  headline : Option String
  location : Option String
  totalScore : ℚ
  shortlistEligible : Bool
  identityBand : IdentityBand
  identityConfidence : ℚ
  outreachAngle : String
  topEvidence : List TopEvidenceEntry
  concerns : List String
deriving DecidableEq

/-- The `meta` record of `CandidatePipelineResults`. -/
structure CandidatePipelineResultsMeta where
  generatedAt : Nat
  totalCandidates : Nat
  shortlistCount : Nat
  reviewCount : Nat
  counts : Option CandidatePipelineCounts
  errorsByStage : Option (List ErrorAggregate)
  searchQueryUsed : Option CandidatePipelineSearchQueryUsed
  modes : Option DiagnosticsModes
  accountHealth : Option AccountHealth
  failure : Option DiagnosticsFailure
deriving DecidableEq

/-- `CandidatePipelineResults` from `src/recruiting/types.ts`. -/
structure CandidatePipelineResults where
  runId : String
  shortlist : List CandidatePipelineResultRow
  reviewQueue : List CandidatePipelineResultRow
  meta : CandidatePipelineResultsMeta
deriving DecidableEq

/-- `ORDER BY total_score DESC` on joined result rows. -/
def rowScoreDesc (a b : CandidatePipelineResultRow) : Prop :=
  b.totalScore ≤ a.totalScore

instance : DecidableRel rowScoreDesc :=
  fun a b => inferInstanceAs (Decidable (b.totalScore ≤ a.totalScore))

instance : IsTotal CandidatePipelineResultRow rowScoreDesc :=
  ⟨fun a b => le_total b.totalScore a.totalScore⟩

instance : IsTrans CandidatePipelineResultRow rowScoreDesc :=
  ⟨fun _ _ _ hab hbc => le_trans hbc hab⟩

/-- Sort key for `ORDER BY relevance DESC`: SQLite sorts `NULL` below every
value, so `DESC` puts `NULL`s last — `⊥` in `WithBot ℚ`. -/
def evRelKey (e : EvidenceRow) : WithBot ℚ :=
  match e.relevance with
  | none => ⊥
  | some q => (q : WithBot ℚ)

/-- `ORDER BY relevance DESC, created_at DESC` on evidence rows. -/
def evidenceDesc (a b : EvidenceRow) : Prop :=
  evRelKey b < evRelKey a ∨ (evRelKey a = evRelKey b ∧ b.createdAt ≤ a.createdAt)

instance : DecidableRel evidenceDesc :=
  fun a b =>
    inferInstanceAs
      (Decidable (evRelKey b < evRelKey a ∨ (evRelKey a = evRelKey b ∧ b.createdAt ≤ a.createdAt)))

instance : IsTotal EvidenceRow evidenceDesc := by
  constructor
  intro a b
  rcases lt_trichotomy (evRelKey a) (evRelKey b) with h | h | h
  · exact Or.inr (Or.inl h)
  · rcases Nat.le_total b.createdAt a.createdAt with hn | hn
    · exact Or.inl (Or.inr ⟨h, hn⟩)
    · exact Or.inr (Or.inr ⟨h.symm, hn⟩)
  · exact Or.inl (Or.inl h)

instance : IsTrans EvidenceRow evidenceDesc := by
  constructor
  intro a b c hab hbc
  rcases hab with h1 | ⟨h1, h1'⟩
  · rcases hbc with h2 | ⟨h2, h2'⟩
    · exact Or.inl (h2.trans h1)
    · exact Or.inl (h2 ▸ h1)
  · rcases hbc with h2 | ⟨h2, h2'⟩
    · exact Or.inl (h1 ▸ h2)
    · exact Or.inr ⟨h1.trans h2, le_trans h2' h1'⟩

/-- `ORDER BY confidence DESC` on identity rows (used by `getCandidate`). -/
def identityConfDesc (a b : IdentityRow) : Prop :=
  b.confidence ≤ a.confidence

instance : DecidableRel identityConfDesc :=
  fun a b => inferInstanceAs (Decidable (b.confidence ≤ a.confidence))

instance : IsTotal IdentityRow identityConfDesc :=
  ⟨fun a b => le_total b.confidence a.confidence⟩

instance : IsTrans IdentityRow identityConfDesc :=
  ⟨fun _ _ _ hab hbc => le_trans hbc hab⟩

/-- The per-row evidence query of `getResults` (and `getVerificationQueue`):
top 3 evidence links for the `(candidate, run)` pair by
`(relevance DESC, created_at DESC)`. -/
def evidenceTop3 (st : StoreState) (candidateId runId : String) : List TopEvidenceEntry :=
  (((st.evidence.filter fun e => e.candidateId == candidateId && e.runId == runId)
        |>.insertionSort evidenceDesc).take 3).map
    fun e => { url := e.url, title := e.title, source := e.source, relevance := e.relevance }

/-- The joined `SELECT` of `getResults`: `candidate_scores` inner-joined with
`candidates`, left-joined with the cross-platform identity; one output row per
score row whose candidate exists. -/
def resultRowOfScore (st : StoreState) (runId : String) (s : ScoreRow) :
    Option CandidatePipelineResultRow :=
  (st.candidates.find? fun c => c.id == s.candidateId).map fun c =>
    let i := st.identities.find? fun i =>
      i.candidateId == c.id && i.platform == "cross_platform"
    { candidateId := c.id
      name := c.fullName.getD "Unknown"
      headline := c.headline
      location := c.location
      totalScore := s.totalScore
      shortlistEligible := s.shortlistEligible
      identityBand := (i.map (·.band)).getD .LOW
      identityConfidence := (i.map (·.confidence)).getD 0
      outreachAngle := s.outreachAngle.getD ""
      topEvidence := evidenceTop3 st s.candidateId runId
      concerns := s.concerns }

/-- The ordered, limited row list of `getResults` (`ORDER BY total_score DESC
LIMIT max(1, trunc(limit))`). -/
def getResultsRows (st : StoreState) (runId : String) (limit : ℚ) :
    List CandidatePipelineResultRow :=
  (((st.scores.filter fun s => s.runId == runId).filterMap (resultRowOfScore st runId))
        |>.insertionSort rowScoreDesc).take (max 1 (jsTrunc limit)).toNat

/-- `CandidateStore.getResults`: ordered rows partitioned into `shortlist` and
`reviewQueue` by the stored `shortlist_eligible` flag, with the run's
`summary_json` diagnostics attached to `meta`. -/
def getResults (st : StoreState) (now : Nat) (runId : String) (limit : ℚ) :
    CandidatePipelineResults :=
  let diagnostics := (st.runs.find? fun r => r.id == runId).bind (·.summary)
  let rows := getResultsRows st runId limit
  let part := rows.partition (·.shortlistEligible)
  { runId := runId
    shortlist := part.1
    reviewQueue := part.2
    meta :=
      { generatedAt := now
        totalCandidates := rows.length
        shortlistCount := part.1.length
        reviewCount := part.2.length
        counts := diagnostics.map (·.counts)
        errorsByStage := diagnostics.map (·.errorsByStage)
        searchQueryUsed := diagnostics.map (·.searchQueryUsed)
        modes := diagnostics.map (·.modes)
        accountHealth := diagnostics.map (·.accountHealth)
        failure := diagnostics.bind (·.failure) } }

/-- The identity list of `CandidateStore.getCandidate` for one candidate,
sorted `ORDER BY confidence DESC`. -/
def getCandidateIdentities (st : StoreState) (candidateId : String) : List IdentityRow :=
  (st.identities.filter fun i => i.candidateId == candidateId).insertionSort identityConfDesc

/-- The read `CandidatePipelineService.submitVerification` performs before
inserting: `getCandidate` returns `null` for an unknown candidate; otherwise the
first `cross_platform` entry of the confidence-sorted identity list supplies
`identityConfidenceBefore`. -/
def crossPlatformConfidenceBefore (st : StoreState) (candidateId : String) : Option ℚ :=
  if st.candidates.any (fun c => c.id == candidateId) then
    ((getCandidateIdentities st candidateId).find? fun i =>
        i.platform == "cross_platform").map (·.confidence)
  else none

/-! ## Service-level workflow operations — `src/recruiting/pipeline.ts` -/

/-- Parameters of `CandidatePipelineService.submitVerification`. -/
structure SubmitVerificationParams where
  runId : String
  candidateId : String
  outcome : VerificationOutcome
  identityConfidenceAfter : Option ℚ
  proofLinks : List String
  notes : Option String
deriving DecidableEq

/-- `CandidatePipelineService.submitVerification`: read the cross-platform
identity confidence, append a `browser` verification row, then update the review
according to the outcome (`confirmed` → `promoted_shortlist` with notes prefixed
"Verified via browser.", `rejected` → `rejected` with notes prefixed
"Verification rejected.", `inconclusive` → review untouched). -/
def serviceSubmitVerification (st : StoreState) (now : Nat)
    (p : SubmitVerificationParams) : StoreState :=
  let identityConfidenceBefore := crossPlatformConfidenceBefore st p.candidateId
  let st1 := storeSubmitVerification st now
    { candidateId := p.candidateId
      runId := p.runId
      method := "browser"
      outcome := p.outcome
      identityConfidenceBefore := identityConfidenceBefore
      identityConfidenceAfter := p.identityConfidenceAfter
      proofLinks := p.proofLinks
      notes := p.notes }
  match p.outcome with
  | .confirmed =>
    upsertReviewStatus st1 now
      { candidateId := p.candidateId
        runId := p.runId
        status := .promoted_shortlist
        priority := none
        notes := some (jsTrim ("Verified via browser. " ++ p.notes.getD ""))
        updatedBy := none }
  | .rejected =>
    upsertReviewStatus st1 now
      { candidateId := p.candidateId
        runId := p.runId
        status := .rejected
        priority := none
        notes := some (jsTrim ("Verification rejected. " ++ p.notes.getD ""))
        updatedBy := none }
  | .inconclusive => st1

/-- Result record of `CandidatePipelineService.promoteCandidate`. -/
structure PromoteResult where
  success : Bool
  error : Option String
deriving DecidableEq

/-- Parameters of `CandidatePipelineService.promoteCandidate`. -/
structure PromoteParams where
  runId : String
  candidateId : String
  promotionReason : String
  evidenceLinks : List String
  confidenceOverride : Option ℚ
  outreachAngle : Option String
deriving DecidableEq

/-- `CandidatePipelineService.promoteCandidate`: reject (without touching the
store) when fewer than `minProofLinks` evidence links are supplied or when a
promotion already exists for the `(candidate, run)` pair; otherwise delegate to
the store's `promoteCandidate`.  `minProofLinks` is
`recruiting.promotion?.minProofLinks ?? 2` (always present after config
resolution). -/
def servicePromoteCandidate (cfg : RecruitingConfig) (st : StoreState) (now : Nat)
    (p : PromoteParams) : PromoteResult × StoreState :=
  let minProofLinks := cfg.minProofLinks
  if (p.evidenceLinks.length : ℤ) < minProofLinks then
    ({ success := false
       error := some ("Promotion requires at least " ++ toString minProofLinks ++
         " evidence links. Provided: " ++ toString p.evidenceLinks.length ++ ".") }, st)
  else
    match getPromotion st p.candidateId p.runId with
    | some _ =>
      ({ success := false
         error := some "Candidate has already been promoted for this run." }, st)
    | none =>
      ({ success := true, error := none },
        storePromoteCandidate st now
          { candidateId := p.candidateId
            runId := p.runId
            promotionReason := p.promotionReason
            confidenceOverride := p.confidenceOverride
            outreachAngle := p.outreachAngle
            proofLinks := p.evidenceLinks
            promotedBy := none })

/-! ## Run orchestrator — `CandidatePipelineService.run` in
`src/recruiting/pipeline.ts`

Collaborator calls (LinkedIn search/profile/activity via Unipile, the external
web enricher) are suspension points whose **post-retry** outcomes are supplied
by a `RunEnv` oracle: `withRetry` either eventually returns a value or rethrows
the final error, and the oracle value is exactly that outcome, so the model
quantifies over every collaborator behaviour. -/

/-- `classifyLinkedInError`'s result record (`src/linkedin/client.ts`,
collaborator). -/
structure ClassifiedLinkedInError where
  type : String
  isTransient : Bool
  message : String
deriving DecidableEq

/-- A thrown JavaScript value that is not a `PipelineStageError`, together with
the verdict the (out-of-repo) `classifyLinkedInError` collaborator gives for
it.  `name = ""` encodes a thrown non-`Error` value (the source then uses
`"error"`). -/
structure JsErrorInfo where
  name : String
  message : String
  classified : ClassifiedLinkedInError
deriving DecidableEq

/-- Everything `run` can see flying out of its `try` region: a
`PipelineStageError` or any other thrown value. -/
inductive RunThrowable
  | stageError (stage message errorType : String) (retryable : Bool)
  | plain (info : JsErrorInfo)
deriving DecidableEq

/-- Result record of `classifyRunError`. -/
structure ClassifiedRunError where
  message : String
  errorType : String
  retryable : Bool
deriving DecidableEq

/-- `isRetryableExternalError` from `src/recruiting/pipeline.ts`, applied to the
error's message text. -/
def isRetryableExternalError (message : String) : Bool :=
  let m := lowerStr message
  strContains m "429" || strContains m "503" || strContains m "timeout" ||
    strContains m "network" || strContains m "econn"

/-- `classifyRunError` from `src/recruiting/pipeline.ts`. -/
def classifyRunError : RunThrowable → ClassifiedRunError
  | .stageError _ message errorType retryable =>
    { message := message, errorType := errorType, retryable := retryable }
  | .plain info =>
    if info.classified.type ≠ "unknown" then
      { message := info.classified.message
        errorType := info.classified.type
        retryable := info.classified.isTransient }
    else
      { message := info.message
        errorType := if info.name ≠ "" then info.name else "error"
        retryable := isRetryableExternalError info.message }

/-- `toNumber`'s input: a JavaScript timestamp value.  A string is carried
together with its `Date.parse` result (`none` for an empty-after-trim or
unparseable string), since `Date.parse` is a runtime-library function. -/
inductive JsTimeValue
  | num (value : ℚ)
  | str (dateParse : Option ℚ)
deriving DecidableEq

/-- `toNumber` from `src/recruiting/pipeline.ts`: numbers above 10¹² are taken
as millis, above 10⁹ as seconds (scaled by 1000), other numbers fall through to
the string branch and yield `null`. -/
def toNumber : Option JsTimeValue → Option ℚ
  | some (.num v) =>
    if v > 1000000000000 then some v
    else if v > 1000000000 then some (v * 1000)
    else none
  | some (.str dateParse) => dateParse
  | none => none

/-- An activity item (post/comment/reaction) as read by
`calcRecentActivityScore`. -/
structure ActivityItem where
  created_at : Option JsTimeValue
  published_at : Option JsTimeValue
  timestamp : Option JsTimeValue
deriving DecidableEq

/-- `calcRecentActivityScore` from `src/recruiting/pipeline.ts`. -/
def calcRecentActivityScore (now : ℚ) (activityItems : List ActivityItem)
    (windowMs : ℚ) : ℚ :=
  if activityItems.isEmpty then 0
  else
    let cutoff := now - windowMs
    let recentCount :=
      (((activityItems.map fun item =>
            toNumber ((item.created_at.orElse fun _ => item.published_at).orElse
              fun _ => item.timestamp)).filterMap id).filter
          fun ts => decide (ts ≥ cutoff)).length
    if recentCount ≤ 0 then 0 else min 1 ((recentCount : ℚ) / 12)

/-- `buildIdempotencyKey` from `src/recruiting/pipeline.ts`. -/
def buildIdempotencyKey (roleKey : String) (targetCandidates : ℤ) (date : String) :
    String :=
  roleKey ++ ":" ++ toString targetCandidates ++ ":" ++ date

/-- `AI_NATIVE_SOURCE_TERMS` from `src/recruiting/pipeline.ts`. -/
def AI_NATIVE_SOURCE_TERMS : List String :=
  ["claude code", "codex", "mcp", "model context protocol", "agentic", "ai-native",
    "autogen", "langgraph", "cursor", "windsurf", "agents", "agent"]

/-- JavaScript `\w` word characters (`[A-Za-z0-9_]`), for `\b` boundaries. -/
def isWordChar (c : Char) : Bool :=
  c.isAlphanum || c == '_'

/-- Case-insensitive prefix match (the source compiles its term patterns with
the `i` flag). -/
def matchIgnoreCase : List Char → List Char → Bool
  | [], _ => true
  | _ :: _, [] => false
  | p :: ps, c :: cs => (p.toLower == c.toLower) && matchIgnoreCase ps cs

/-- One global, case-insensitive, word-bounded replacement pass
(`new RegExp("\\b" + term + "\\b", "gi")` with replacement `" "`): leftmost,
non-overlapping matches are found in the original text.  `fuel` bounds the
recursion by the input length. -/
def replaceTermAux (term : List Char) : Nat → Option Char → List Char → List Char
  | 0, _, l => l
  | _ + 1, _, [] => []
  | fuel + 1, prev, c :: cs =>
    let boundaryBefore := match prev with
      | none => true
      | some p => !isWordChar p
    if boundaryBefore && matchIgnoreCase term (c :: cs) &&
        (match (c :: cs).drop term.length with
         | [] => true
         | a :: _ => !isWordChar a) then
      ' ' :: replaceTermAux term fuel term.getLast? ((c :: cs).drop term.length)
    else
      c :: replaceTermAux term fuel (some c) cs

/-- Collapse every maximal whitespace run into a single space. -/
def collapseWsChars : List Char → List Char
  | [] => []
  | c :: cs =>
    let rest := collapseWsChars cs
    if c.isWhitespace then
      if rest.head? = some ' ' then rest else ' ' :: rest
    else c :: rest

/-- `normalizeWhitespace` from `src/recruiting/pipeline.ts`:
`value.replace(/[\s]+/g, " ").trim()`. -/
def normalizeWhitespace (value : String) : String :=
  jsTrim ⟨collapseWsChars value.data⟩

/-- `stripAiNativeTerms` from `src/recruiting/pipeline.ts`.  The intermediate
`out.replace(/[|/]+/g, " ")` is embedded as mapping every `|` and `/` to a
space: composed with the subsequent whitespace collapse this yields the same
string as replacing each run by one space. -/
def stripAiNativeTerms (value : String) : String :=
  let afterTerms := AI_NATIVE_SOURCE_TERMS.foldl
    (fun out term => replaceTermAux term.data out.length none out) value.data
  let afterPipes := afterTerms.map fun c => if c == '|' || c == '/' then ' ' else c
  normalizeWhitespace ⟨afterPipes⟩

/-- The `stripAiNativeTerms(x) || undefined` idiom applied to an optional,
possibly-empty keyword field inside `normalizeSearchForSourceMode`. -/
def stripKeywordField (v : Option String) : Option String :=
  if strTruthy v then
    let s := stripAiNativeTerms (v.getD "")
    if s = "" then none else some s
  else v

/-- `normalizeSearchForSourceMode` from `src/recruiting/pipeline.ts`. -/
def normalizeSearchForSourceMode (input : TalentSearchParams)
    (mode : SourceQueryMode) : TalentSearchParams :=
  match mode with
  | .default => input
  | .broad =>
    { input with
      keywords := stripKeywordField input.keywords
      role := input.role.map fun l =>
        (l.map fun r => { r with keywords := stripKeywordField r.keywords }).filter
          fun r => strTruthy r.keywords || strTruthy r.id
      skills := input.skills.map fun l =>
        (l.map fun s => { s with keywords := stripKeywordField s.keywords }).filter
          fun s => strTruthy s.keywords || strTruthy s.id
      company := input.company.map fun l =>
        (l.map fun c => { c with keywords := stripKeywordField c.keywords }).filter
          fun c => strTruthy c.keywords || strTruthy c.id || strTruthy c.name }

/-- `buildSearchQueryUsed` from `src/recruiting/pipeline.ts`. -/
def buildSearchQueryUsed (api : TalentSearchApi) (search : TalentSearchParams)
    (pageSize maxPages : ℤ) : CandidatePipelineSearchQueryUsed :=
  { api := api
    keywords := search.keywords
    roleKeywords := (search.role.getD []).filterMap fun item =>
      let t := item.keywords.map jsTrim
      if strTruthy t then t else none
    skills := (search.skills.getD []).filterMap fun item =>
      let t := item.keywords.map jsTrim
      if strTruthy t then t else none
    companyKeywords := (search.company.getD []).filterMap fun item =>
      let t := item.keywords.map jsTrim
      let chosen := if strTruthy t then t else item.name.map jsTrim
      if strTruthy chosen then chosen else none
    location := search.location
    industry := search.industry
    networkDistance := (search.network_distance.getD []).filter
      fun v => v == 1 || v == 2 || v == 3
    pageSize := pageSize
    maxPages := maxPages }

/-- `resolvedApi` from `src/recruiting/pipeline.ts`. -/
def resolvedApi (search : TalentSearchParams) : TalentSearchApi :=
  match search.api with
  | some .recruiter => .recruiter
  | some .sales_navigator => .sales_navigator
  | _ => .classic

/-- `emptyCounts` from `src/recruiting/pipeline.ts`. -/
def emptyCounts : CandidatePipelineCounts :=
  { sourced := 0
    enriched := 0
    enrichFailed := 0
    externalDiscovered := 0
    identityConfirmedHigh := 0
    identityMediumLow := 0
    shortlistEligible := 0 }

/-- The pipeline's `stageErrors` accumulator: a `Map` of `Map`s, embedded as
insertion-ordered association lists (JavaScript `Map` iteration order is
insertion order). -/
abbrev StageErrorMap := List (String × List (String × StageTopMessage))

/-- `upsertStageError` from `src/recruiting/pipeline.ts` (entry key
`errorType + ":" + message`). -/
def upsertStageError (m : StageErrorMap) (stage message errorType : String) :
    StageErrorMap :=
  let key := errorType ++ ":" ++ message
  let updateEntries (entries : List (String × StageTopMessage)) :=
    if entries.any (fun e => e.1 == key) then
      entries.map fun e =>
        if e.1 = key then (e.1, { e.2 with count := e.2.count + 1 }) else e
    else entries ++ [(key, { message := message, errorType := errorType, count := 1 })]
  if m.any (fun p => p.1 == stage) then
    m.map fun p => if p.1 = stage then (p.1, updateEntries p.2) else p
  else m ++ [(stage, updateEntries [])]

/-- Stable insertion step for a descending-by-count sort. -/
def stableInsertDescBy (count : α → Nat) (x : α) : List α → List α
  | [] => [x]
  | y :: l => if count x > count y then x :: y :: l else y :: stableInsertDescBy count x l

/-- `Array.prototype.toSorted((a, b) => b.count - a.count)`: stable descending
sort by count. -/
def stableSortDescBy (count : α → Nat) (l : List α) : List α :=
  l.foldl (fun acc x => stableInsertDescBy count x acc) []

/-- `buildStageErrors` from `src/recruiting/pipeline.ts`: per stage, the top 3
messages by count (stable order on ties) with the aggregate count summed over
those top messages; stages themselves sorted descending by that count. -/
def buildStageErrors (m : StageErrorMap) : List ErrorAggregate :=
  stableSortDescBy (·.count)
    (m.map fun p =>
      let messages := (stableSortDescBy (·.count) (p.2.map (·.2))).take 3
      { stage := p.1
        count := messages.foldl (fun sum item => sum + item.count) 0
        topMessages := messages })

/-- The closure-captured mutable run state (`counts`, `stageErrors`). -/
structure RunAcc where
  counts : CandidatePipelineCounts
  stageErrors : StageErrorMap

/-- `buildDiagnostics` closure inside `run`. -/
def buildDiagnostics (acc : RunAcc)
    (searchQueryUsed : CandidatePipelineSearchQueryUsed) (modes : DiagnosticsModes)
    (accountHealth : AccountHealth) (failure : Option DiagnosticsFailure) :
    CandidatePipelineDiagnostics :=
  { counts := acc.counts
    errorsByStage := buildStageErrors acc.stageErrors
    searchQueryUsed := searchQueryUsed
    modes := modes
    accountHealth := accountHealth
    failure := failure }

/-- `persistFailure` closure inside `run`: aggregate into `stageErrors` and
append a `run_failures` row. -/
def persistFailure (acc : RunAcc) (st : StoreState) (now : Nat)
    (runId stage : String) (candidateRef : Option String)
    (info : ClassifiedRunError) : RunAcc × StoreState :=
  ({ acc with stageErrors := upsertStageError acc.stageErrors stage info.message info.errorType },
    recordFailure st now
      { runId := runId
        step := stage
        candidateRef := candidateRef
        errorType := info.errorType
        message := info.message
        retryable := info.retryable })

/-- `ExternalIdentityHints` entries from `src/recruiting/external.ts`. -/
structure ExternalIdentityHint where
  handle : Option String
  url : Option String
deriving DecidableEq

/-- The personal-site hint from `src/recruiting/external.ts`. -/
structure ExternalPersonalSiteHint where
  url : Option String
deriving DecidableEq

/-- `ExternalIdentityHints` from `src/recruiting/external.ts`. -/
structure ExternalIdentityHints where
  github : Option ExternalIdentityHint
  x : Option ExternalIdentityHint
  personalSite : Option ExternalPersonalSiteHint
deriving DecidableEq

/-- `ExternalEnrichment` from `src/recruiting/external.ts` (the enricher's
output record, supplied per candidate by the collaborator oracle). -/
structure ExternalEnrichment where
  signals : List CandidateSignal
  evidenceLinks : List CandidateEvidenceLink
  identityHints : ExternalIdentityHints
deriving DecidableEq

/-- A sourced LinkedIn candidate as returned by `searchTalent` (collaborator
type), restricted to the fields the pipeline reads. -/
structure SourcedCandidate where
  provider_id : String
  public_identifier : Option String
  profile_url : Option String
  public_profile_url : Option String
  name : String
  headline : Option String
  location : Option String
  current_company : Option String
  current_role : Option String
  skills : List String
deriving DecidableEq

/-- `searchTalent`'s result record (collaborator type). -/
structure SearchTalentResult where
  success : Bool
  candidates : List SourcedCandidate
  error : Option String
deriving DecidableEq

/-- The profile object returned by `getUserProfile`, restricted to the one
field the pipeline reads (`is_open_to_work`). -/
structure LinkedInProfile where
  is_open_to_work : Option Bool
deriving DecidableEq

/-- A posts/comments/reactions response: `items` when it is an array. -/
structure ActivityResponse where
  items : Option (List ActivityItem)
deriving DecidableEq

/-- The resolved LinkedIn account (collaborator record from
`src/linkedin/accounts.ts`). -/
structure AccountInfo where
  accountId : String
  unipileAccountId : Option String
  enabled : Bool
  apiKeySource : String
deriving DecidableEq

/-- Per-candidate collaborator outcomes: the post-retry results of the profile,
posts, comments and reactions calls and of the external enricher, plus the UUID
`upsertCandidate` would draw for a keyless insert. -/
structure CandidateCalls where
  uuid : String
  profile : Except JsErrorInfo LinkedInProfile
  posts : Except JsErrorInfo ActivityResponse
  comments : Except JsErrorInfo ActivityResponse
  reactions : Except JsErrorInfo ActivityResponse
  external : Except JsErrorInfo ExternalEnrichment

/-- The oracle environment of one `run` invocation. -/
structure RunEnv where
  now : Nat
  todayDate : String
  freshRunId : String
  account : AccountInfo
  missingCredentials : List String
  clientOptsAvailable : Bool
  searchOutcome : Except JsErrorInfo SearchTalentResult
  searchFailureClassified : ClassifiedLinkedInError
  calls : Nat → CandidateCalls
  sqlErrorInfo : SqlErr → JsErrorInfo

/-- `PipelineRoleInput` from `src/recruiting/types.ts`. -/
structure PipelineRoleInput where
  roleKey : String
  roleTitle : String
  search : TalentSearchParams
  targetCandidates : Option ℚ
deriving DecidableEq

/-- `CandidatePipelineRunInput` from `src/recruiting/types.ts`. -/
structure CandidatePipelineRunInput where
  role : PipelineRoleInput
  runId : Option String
  idempotencyKey : Option String
  browserVerificationEnabled : Option Bool
  sourceQueryMode : Option SourceQueryMode
  evidenceQueryMode : Option EvidenceQueryMode
deriving DecidableEq

/-- The record `run` resolves with. -/
structure RunResultRecord where
  runId : String
  resumed : Bool
  status : Option CandidatePipelineStatus
deriving DecidableEq

/-- The effective target-candidate count of `run`:
`Math.max(1, Math.trunc(role.targetCandidates ?? recruiting.run.targetCandidatesPerRole))`. -/
def runTargetCandidates (roleTarget : Option ℚ) (configured : ℤ) : ℤ :=
  max 1 (jsTrunc (roleTarget.getD (configured : ℚ)))

/-- The identity the pipeline persists and scores: `resolveIdentity`'s result
with `shortlistEligible` overridden to
`confidence >= recruiting.identity.minConfidenceForShortlist`
(pipeline.ts, the `identity` binding after `rawIdentity`). -/
def pipelineIdentity (threshold : ℚ) (input : IdentityResolutionInput) :
    IdentityResolution :=
  let rawIdentity := resolveIdentity input
  { rawIdentity with shortlistEligible := decide (rawIdentity.confidence ≥ threshold) }

/-- The per-candidate `catch` handler: bump `enrichFailed`, classify, persist a
`candidate_enrich_score` failure. -/
def candidateEnrichFailed (now : Nat) (runId providerId : String) (acc : RunAcc)
    (st : StoreState) (e : RunThrowable) : RunAcc × StoreState :=
  let acc1 := { acc with counts :=
    { acc.counts with enrichFailed := acc.counts.enrichFailed + 1 } }
  persistFailure acc1 st now runId "candidate_enrich_score" (some providerId)
    (classifyRunError e)

/-- One iteration of the per-candidate loop of `run` (pipeline.ts, the body of
`for (const [index, candidate] of searchResult.candidates.entries())`).  The
whole body sits in a `try` whose `catch` is `candidateEnrichFailed`; the three
activity calls run under `Promise.all`, whose first rejection (in list order in
this model) wins. -/
def processCandidate (cfg : RecruitingConfig) (env : RunEnv) (runId : String)
    (browserVerificationEnabled : Bool) (index : Nat) (candidate : SourcedCandidate)
    (accSt : RunAcc × StoreState) : RunAcc × StoreState :=
  let acc := accSt.1
  let st := accSt.2
  let calls := env.calls index
  match upsertCandidate st env.now calls.uuid
    { providerId := some candidate.provider_id
      publicIdentifier := candidate.public_identifier
      profileUrl := candidate.public_profile_url.orElse fun _ => candidate.profile_url
      name := some candidate.name
      headline := candidate.headline
      location := candidate.location
      currentCompany := candidate.current_company
      currentRole := candidate.current_role } with
  | .error e =>
    candidateEnrichFailed env.now runId candidate.provider_id acc st
      (.plain (env.sqlErrorInfo e))
  | .ok ((candidateId, _hash), st1) =>
    let st2 := addSourceRecord st1 candidateId runId "linkedin.search" ((index : ℤ) + 1)
    match calls.profile with
    | .error e => candidateEnrichFailed env.now runId candidate.provider_id acc st2 (.plain e)
    | .ok profile =>
      match calls.posts with
      | .error e => candidateEnrichFailed env.now runId candidate.provider_id acc st2 (.plain e)
      | .ok postsRes =>
        match calls.comments with
        | .error e => candidateEnrichFailed env.now runId candidate.provider_id acc st2 (.plain e)
        | .ok commentsRes =>
          match calls.reactions with
          | .error e => candidateEnrichFailed env.now runId candidate.provider_id acc st2 (.plain e)
          | .ok reactionsRes =>
            let posts := postsRes.items.getD []
            let comments := commentsRes.items.getD []
            let reactions := reactionsRes.items.getD []
            let windowMs : ℚ := 90 * 24 * 60 * 60 * 1000
            let baseSignals : List CandidateSignal :=
              [{ key := "builder_activity", value := none
                 numericValue := some (calcRecentActivityScore (env.now : ℚ) posts windowMs)
                 source := "linkedin.posts", details := none },
               { key := "builder_activity", value := none
                 numericValue := some (calcRecentActivityScore (env.now : ℚ) comments windowMs)
                 source := "linkedin.comments", details := none },
               { key := "builder_activity", value := none
                 numericValue := some (calcRecentActivityScore (env.now : ℚ) reactions windowMs)
                 source := "linkedin.reactions", details := none },
               { key := "technical_depth", value := none
                 numericValue := some (if candidate.skills.length > 0 then
                   min 1 ((candidate.skills.length : ℚ) / 12) else 0)
                 source := "linkedin.profile", details := some (.skills (candidate.skills.take 20)) },
               { key := "role_fit", value := none
                 numericValue := some (if strTruthy candidate.headline then 0.6 else 0.3)
                 source := "linkedin.profile", details := none }]
            match calls.external with
            | .error e =>
              candidateEnrichFailed env.now runId candidate.provider_id acc st2 (.plain e)
            | .ok external =>
              let acc1 :=
                if external.evidenceLinks.length > 0 then
                  { acc with counts := { acc.counts with
                    externalDiscovered := acc.counts.externalDiscovered + 1 } }
                else acc
              let signals1 := baseSignals ++ external.signals
              let identity := pipelineIdentity cfg.minConfidenceForShortlist
                { linkedin :=
                    { providerId := some candidate.provider_id
                      publicIdentifier := candidate.public_identifier
                      profileUrl := candidate.public_profile_url.orElse fun _ => candidate.profile_url
                      name := some candidate.name
                      employer := candidate.current_company
                      location := candidate.location }
                  github := some
                    { handle := (external.identityHints.github.bind (·.handle))
                      url := (external.identityHints.github.bind (·.url))
                      profileLinkedinUrl := none
                      employer := none
                      location := none }
                  x := some
                    { handle := (external.identityHints.x.bind (·.handle))
                      url := (external.identityHints.x.bind (·.url))
                      profileLinkedinUrl := none }
                  personalSite := some
                    { url := (external.identityHints.personalSite.bind (·.url))
                      linkedinUrl := none
                      githubUrl := none
                      xUrl := none } }
              let acc2 :=
                if identity.band == .CONFIRMED || identity.band == .HIGH then
                  { acc1 with counts := { acc1.counts with
                    identityConfirmedHigh := acc1.counts.identityConfirmedHigh + 1 } }
                else
                  { acc1 with counts := { acc1.counts with
                    identityMediumLow := acc1.counts.identityMediumLow + 1 } }
              let evidenceLinks : List CandidateEvidenceLink :=
                ({ url := ((candidate.public_profile_url.orElse fun _ =>
                      candidate.profile_url).getD "")
                   title := some ("LinkedIn: " ++ candidate.name)
                   source := "linkedin.profile"
                   relevance := some 1 } :: external.evidenceLinks).filter
                  fun item => item.url != ""
              let signals2 := signals1 ++
                (if browserVerificationEnabled &&
                    cfg.browserVerificationMode == .high_only &&
                    identity.band == .HIGH then
                  [{ key := "browser_verification_needed", value := some "true"
                     numericValue := some 1, source := "pipeline", details := none }]
                else [])
              let openToWork := profile.is_open_to_work == some true
              let score := computeCandidateScore
                { signals := signals2
                  identity := identity
                  evidence := evidenceLinks
                  openToWork := some openToWork }
              let st3 := upsertIdentity st2 env.now
                { candidateId := candidateId, platform := "cross_platform"
                  handle := none, url := none, resolution := identity }
              let st4 :=
                if strTruthy (external.identityHints.github.bind (·.handle)) ||
                    strTruthy (external.identityHints.github.bind (·.url)) then
                  upsertIdentity st3 env.now
                    { candidateId := candidateId, platform := "github"
                      handle := external.identityHints.github.bind (·.handle)
                      url := external.identityHints.github.bind (·.url)
                      resolution := identity }
                else st3
              let st5 :=
                if strTruthy (external.identityHints.x.bind (·.handle)) ||
                    strTruthy (external.identityHints.x.bind (·.url)) then
                  upsertIdentity st4 env.now
                    { candidateId := candidateId, platform := "x"
                      handle := external.identityHints.x.bind (·.handle)
                      url := external.identityHints.x.bind (·.url)
                      resolution := identity }
                else st4
              let st6 := addSignals st5 env.now candidateId signals2
              let st7 := upsertScore st6 env.now candidateId runId score
              let st8 := addEvidenceLinks st7 env.now candidateId runId evidenceLinks
              let acc3 :=
                if score.shortlistEligible then
                  { acc2 with counts := { acc2.counts with
                    shortlistEligible := acc2.counts.shortlistEligible + 1 } }
                else acc2
              ({ acc3 with counts := { acc3.counts with
                 enriched := acc3.counts.enriched + 1 } }, st8)

/-- The `try` region of `run` (preflight, sourcing, per-candidate loop).  The
result carries the accumulator and store state reached so far plus the throwable
that escaped to the outer `catch`, if any. -/
def runBody (cfg : RecruitingConfig) (env : RunEnv) (st : StoreState)
    (runId : String) (browserVerificationEnabled : Bool) :
    (RunAcc × StoreState) × Option RunThrowable :=
  let acc0 : RunAcc := { counts := emptyCounts, stageErrors := [] }
  if !env.account.enabled then
    ((acc0, st), some (.stageError "linkedin_preflight"
      "LinkedIn integration is disabled for the resolved account." "auth" false))
  else if !env.clientOptsAvailable then
    ((acc0, st), some (.stageError "linkedin_preflight"
      ("LinkedIn credentials missing: " ++ String.intercalate ", " env.missingCredentials ++ ".")
      "auth" false))
  else
    match env.searchOutcome with
    | .error e => ((acc0, st), some (.plain e))
    | .ok searchResult =>
      if !searchResult.success then
        ((acc0, st), some (.stageError "linkedin_search"
          (if strTruthy searchResult.error then searchResult.error.getD ""
           else "LinkedIn search failed")
          env.searchFailureClassified.type env.searchFailureClassified.isTransient))
      else
        let acc1 := { acc0 with counts := { acc0.counts with
          sourced := searchResult.candidates.length } }
        (searchResult.candidates.enum.foldl
          (fun accSt ic =>
            processCandidate cfg env runId browserVerificationEnabled ic.1 ic.2 accSt)
          (acc1, st), none)

/-- `CandidatePipelineService.run`.  Everything before `beginRun` and the
`beginRun` call itself sit **outside** the `try`/`catch`, so a store exception
raised there propagates to the caller as the `Except.error` of this function;
every throwable raised inside the `try` region is handled by the `catch`
(classify, `persistFailure`, `markRunFailed` with the failure diagnostics) which
then resolves normally. -/
def modelRun (cfg : RecruitingConfig) (env : RunEnv) (st : StoreState)
    (input : CandidatePipelineRunInput) :
    Except SqlErr (RunResultRecord × StoreState) :=
  let role := input.role
  let browserVerificationEnabled :=
    input.browserVerificationEnabled.getD cfg.browserVerificationEnabled
  let sourceQueryMode := input.sourceQueryMode.getD .default
  let evidenceQueryMode := input.evidenceQueryMode.getD .default
  let targetCandidates := runTargetCandidates role.targetCandidates cfg.targetCandidatesPerRole
  let dailyKey := buildIdempotencyKey role.roleKey targetCandidates env.todayDate
  match beginRun st env.now env.freshRunId
    { runId := input.runId
      idempotencyKey := some (input.idempotencyKey.getD dailyKey)
      roleKey := role.roleKey
      roleTitle := role.roleTitle
      targetCandidates := targetCandidates
      config := some cfg
      criteria := some
        { search := role.search
          source_query_mode := sourceQueryMode
          evidence_query_mode := evidenceQueryMode } } with
  | .error e => .error e
  | .ok (runInfo, st1) =>
    if runInfo.resumed then
      .ok ({ runId := runInfo.runId, resumed := true
             status := getRunStatus st1 runInfo.runId }, st1)
    else
      let pages := max 1 (jsCeil ((targetCandidates : ℚ) / 50))
      let maxPages := max 3 pages
      let api := resolvedApi role.search
      let accountHealth : AccountHealth :=
        { requestedAccountId := role.search.accountId
          resolvedAccountId := env.account.accountId
          unipileAccountId := env.account.unipileAccountId
          enabled := env.account.enabled
          apiKeySource := env.account.apiKeySource
          missingCredentials := env.missingCredentials
          recruiterReady := env.account.enabled && env.missingCredentials.isEmpty }
      let normalizedSearch := normalizeSearchForSourceMode role.search sourceQueryMode
      let searchQueryUsed := buildSearchQueryUsed api normalizedSearch 50 maxPages
      let modes : DiagnosticsModes :=
        { sourceQueryMode := sourceQueryMode, evidenceQueryMode := evidenceQueryMode }
      match runBody cfg env st1 runInfo.runId browserVerificationEnabled with
      | ((acc, st2), none) =>
        let st3 := markRunCompleted st2 env.now runInfo.runId
          (some (buildDiagnostics acc searchQueryUsed modes accountHealth none))
        .ok ({ runId := runInfo.runId, resumed := false
               status := getRunStatus st3 runInfo.runId }, st3)
      | ((acc, st2), some e) =>
        let info := classifyRunError e
        let stage := match e with
          | .stageError s _ _ _ => s
          | .plain _ => "pipeline_run"
        let accSt := persistFailure acc st2 env.now runInfo.runId stage none info
        let st4 := markRunFailed accSt.2 env.now runInfo.runId
          (some (buildDiagnostics accSt.1 searchQueryUsed modes accountHealth
            (some { stage := stage, message := info.message, errorType := info.errorType })))
        .ok ({ runId := runInfo.runId, resumed := false
               status := getRunStatus st4 runInfo.runId }, st4)

/-! ## Concrete states and environments used by evaluation theorems -/

/-- The empty database (a freshly created store). -/
def emptyStore : StoreState :=
  { runs := []
    runRoles := []
    candidates := []
    sourceRecords := []
    identities := []
    signals := []
    scores := []
    evidence := []
    failures := []
    reviews := []
    verifications := []
    promotions := [] }

/-- A run that was begun with idempotency key `"k"` and has been marked
`failed`. -/
def failedRunRow : RunRow :=
  { id := "r1"
    idempotencyKey := some "k"
    status := .failed
    startedAt := 0
    finishedAt := some 5
    targetCandidates := 300
    roleKey := "backend"
    roleTitle := "Backend Engineer"
    config := none
    summary := none }

/-- A store whose only run holds key `"k"` in status `failed`. -/
def stFailedEx : StoreState :=
  { emptyStore with runs := [failedRunRow] }

/-- The same run while still `running`. -/
def runningRunRow : RunRow :=
  { failedRunRow with status := .running, finishedAt := none }

/-- A store whose only run holds key `"k"` in status `running`. -/
def stRunningEx : StoreState :=
  { emptyStore with runs := [runningRunRow] }

/-- A `beginRun` parameter record resubmitting key `"k"`. -/
def beginRunParamsEx : BeginRunParams :=
  { runId := none
    idempotencyKey := some "k"
    roleKey := "backend"
    roleTitle := "Backend Engineer"
    targetCandidates := 300
    config := none
    criteria := none }

/-- An entirely empty talent search parameter record. -/
def searchEx : TalentSearchParams :=
  { api := none
    keywords := none
    role := none
    skills := none
    company := none
    location := none
    industry := none
    network_distance := none
    accountId := none }

/-- The recruiting configuration with every default. -/
def cfgEx : RecruitingConfig :=
  resolveRecruitingConfig rawConfigDefaults

/-- Benign per-candidate collaborator outcomes (never reached by the
evaluation theorems that use them). -/
def callsStub : CandidateCalls :=
  { uuid := "u"
    profile := .ok { is_open_to_work := none }
    posts := .ok { items := none }
    comments := .ok { items := none }
    reactions := .ok { items := none }
    external := .ok
      { signals := []
        evidenceLinks := []
        identityHints := { github := none, x := none, personalSite := none } } }

/-- A healthy collaborator environment: enabled account, credentials present,
successful (empty) search. -/
def envEx : RunEnv :=
  { now := 100
    todayDate := "2026-01-01"
    freshRunId := "r2"
    account :=
      { accountId := "acct", unipileAccountId := none, enabled := true, apiKeySource := "env" }
    missingCredentials := []
    clientOptsAvailable := true
    searchOutcome := .ok { success := true, candidates := [], error := none }
    searchFailureClassified := { type := "unknown", isTransient := false, message := "" }
    calls := fun _ => callsStub
    sqlErrorInfo := fun _ =>
      { name := "SqliteError"
        message := "UNIQUE constraint failed: pipeline_runs.idempotency_key"
        classified := { type := "unknown", isTransient := false, message := "" } } }

/-- A `run` input resubmitting idempotency key `"k"`. -/
def runInputEx : CandidatePipelineRunInput :=
  { role :=
      { roleKey := "backend"
        roleTitle := "Backend Engineer"
        search := searchEx
        targetCandidates := none }
    runId := none
    idempotencyKey := some "k"
    browserVerificationEnabled := none
    sourceQueryMode := none
    evidenceQueryMode := none }

/-- C1: for a `beginRun` call with a non-empty idempotency key whose existing
run is `failed`, the claim says the call succeeds, inserts a fresh `running` run
and returns `{runId: <new>, resumed: false}`.  The code instead falls through to
a plain `INSERT` while the failed run still holds the key, and the schema's
`UNIQUE (idempotency_key)` constraint makes that insert throw: evaluated at a
store whose only run holds key `"k"` in status `failed`, `beginRun` raises the
unique-constraint error instead of restarting the run. -/
theorem beginRun_failed_restart_throws :
    beginRun stFailedEx 100 "r2" beginRunParamsEx =
      .error (SqlErr.uniqueConstraint "pipeline_runs.idempotency_key") := by
  rfl

/-- C3: the claim says `run` never throws to its caller for any behaviour of
the collaborators and store.  But `beginRun` is invoked before `run`'s
`try`/`catch` region, so the unique-constraint exception of the C1 scenario
(resubmitting the key of a `failed` run) propagates out of `run`: with a healthy
collaborator environment and a store whose only run holds key `"k"` in status
`failed`, `run` throws instead of resolving. -/
theorem run_throws_on_failed_key_rerun :
    modelRun cfgEx envEx stFailedEx runInputEx =
      .error (SqlErr.uniqueConstraint "pipeline_runs.idempotency_key") := by
  rfl

/-! ## C2: idempotent resume -/

/-- Well-formedness reflected from the schema: `pipeline_runs.idempotency_key`
is `UNIQUE` among non-`NULL` values. -/
def IdemKeysUnique (runs : List RunRow) : Prop :=
  runs.Pairwise fun a b => a.idempotencyKey = none ∨ a.idempotencyKey ≠ b.idempotencyKey

/-- Under key uniqueness, filtering for the key of a member run yields exactly
that run. -/
theorem filter_key_eq_singleton {runs : List RunRow} (hwf : IdemKeysUnique runs)
    {r : RunRow} (hr : r ∈ runs) {k : String} (hkey : r.idempotencyKey = some k) :
    runs.filter (fun x => x.idempotencyKey == some k) = [r] := by
  induction runs with
  | nil => cases hr
  | cons a l ih =>
    rcases List.pairwise_cons.mp hwf with ⟨ha, hl⟩
    rcases List.mem_cons.mp hr with rfl | hmem
    · have hnone : ∀ x ∈ l, x.idempotencyKey ≠ some k := by
        intro x hx hc
        rcases ha x hx with h | h
        · rw [hkey] at h; cases h
        · exact h (by rw [hkey, hc])
      have : l.filter (fun x => x.idempotencyKey == some k) = [] := by
        refine List.filter_eq_nil_iff.mpr ?_
        intro x hx
        simp [hnone x hx]
      simp [List.filter_cons, hkey, this]
    · have hne : a.idempotencyKey ≠ some k := by
        intro hc
        rcases ha r hmem with h | h
        · rw [hc] at h; cases h
        · exact h (by rw [hc, hkey])
      have : (a.idempotencyKey == some k) = false := by
        simp [hne]
      simp only [List.filter_cons, this, Bool.false_eq_true, if_false]
      exact ih hl hmem

/-- Under key uniqueness, the `beginRun` lookup finds the member run holding the
key. -/
theorem mostRecentRunByKey_eq {runs : List RunRow} (hwf : IdemKeysUnique runs)
    {r : RunRow} (hr : r ∈ runs) {k : String} (hkey : r.idempotencyKey = some k) :
    mostRecentRunByKey runs k = some r := by
  rw [mostRecentRunByKey, filter_key_eq_singleton hwf hr hkey]
  rfl

/-- C2: for a pair of `beginRun` calls with the same non-empty idempotency key,
the first call (into a store not yet holding the key, with a fresh run id)
creates a run with id `f₁` and returns `{runId := f₁, resumed := false}`; and
whatever state the store has reached by the time of the second call, as long as
the run created by the first call (the unique holder of the key) is `running` or
`completed`, the second call returns the same `runId` with `resumed = true` and
leaves the store unchanged — in particular it inserts no new run row. -/
theorem beginRun_idempotent_resume
    (st₀ : StoreState) (now₁ now₂ : Nat) (f₁ f₂ : String)
    (p₁ p₂ : BeginRunParams) (k : String)
    (hk : k ≠ "")
    (hp₁ : p₁.idempotencyKey = some k) (hp₂ : p₂.idempotencyKey = some k)
    (hnew : ∀ r ∈ st₀.runs, r.idempotencyKey ≠ some k)
    (hid : p₁.runId = none)
    (hfresh : ∀ r ∈ st₀.runs, r.id ≠ f₁)
    (hrole : ∀ rr ∈ st₀.runRoles, rr.runId ≠ f₁) :
    (∃ st₁ : StoreState,
      beginRun st₀ now₁ f₁ p₁ = .ok ({ runId := f₁, resumed := false }, st₁)) ∧
    (∀ st₂ : StoreState, IdemKeysUnique st₂.runs →
      ∀ r ∈ st₂.runs, r.idempotencyKey = some k → r.id = f₁ →
        (r.status = .running ∨ r.status = .completed) →
        beginRun st₂ now₂ f₂ p₂ = .ok ({ runId := f₁, resumed := true }, st₂)) := by
  constructor
  · have hfilter : st₀.runs.filter (fun x => x.idempotencyKey == some k) = [] := by
      refine List.filter_eq_nil_iff.mpr ?_
      intro x hx
      simp [hnew x hx]
    have hlookup : mostRecentRunByKey st₀.runs k = none := by
      rw [mostRecentRunByKey, hfilter]; rfl
    have hne₁ : ¬∃ x ∈ st₀.runs, x.id = f₁ := by
      rintro ⟨x, hx, hc⟩
      exact hfresh x hx hc
    have hne₂ : ¬∃ x ∈ st₀.runs, x.idempotencyKey = some k := by
      rintro ⟨x, hx, hc⟩
      exact hnew x hx hc
    have hne₃ : ¬∃ x ∈ st₀.runRoles, x.runId = f₁ ∧ x.roleKey = p₁.roleKey := by
      rintro ⟨x, hx, hc, -⟩
      exact hrole x hx hc
    rw [beginRun, hp₁, hid]
    simp only [strTruthy, Option.getD_some, ne_eq, hlookup]
    simp [hk, hne₁, hne₂, hne₃]
  · intro st₂ hwf r hr hkey hidr hst
    have hlookup := mostRecentRunByKey_eq hwf hr hkey
    have hstatus : (r.status == RunStatus.running || r.status == RunStatus.completed) = true := by
      rcases hst with h | h <;> simp [h]
    rw [beginRun, hp₂]
    simp only [strTruthy, Option.getD_some, ne_eq, hlookup]
    simp [hk, hstatus, hidr]

/-- Closed witness for C2: with the store holding the `running` run `"r1"`
created by a first call with key `"k"`, the resubmission returns the same run id
with `resumed = true` and an unchanged store. -/
theorem beginRun_idempotent_resume_witness :
    beginRun stRunningEx 200 "f2" beginRunParamsEx =
      .ok ({ runId := "r1", resumed := true }, stRunningEx) := by
  have h := (beginRun_idempotent_resume emptyStore 100 200 "r1" "f2"
    beginRunParamsEx beginRunParamsEx "k"
    (by decide) rfl rfl (by intro r hr; cases hr) rfl
    (by intro r hr; cases hr) (by intro rr hrr; cases hrr)).2
  exact h stRunningEx (List.pairwise_singleton _ _) runningRunRow
    (List.mem_singleton.mpr rfl) rfl rfl (Or.inl rfl)

/-! ## C4: effective target-candidate count -/

/-- `clampNumber` really lands in `[lo, hi]` when the bounds are sane. -/
theorem clampNumber_bounds (v : Option ℚ) (lo hi fb : ℚ) (hlohi : lo ≤ hi)
    (hfb₁ : lo ≤ fb) (hfb₂ : fb ≤ hi) :
    lo ≤ clampNumber v lo hi fb ∧ clampNumber v lo hi fb ≤ hi := by
  cases v with
  | none => exact ⟨hfb₁, hfb₂⟩
  | some q =>
    refine ⟨le_min hlohi (le_max_left _ _), min_le_left _ _⟩

/-- The resolved `run.targetCandidatesPerRole` lies in `[1, 2000]`. -/
theorem resolvedTargetCandidates_bounds (raw : RecruitingRawConfig) :
    1 ≤ (resolveRecruitingConfig raw).targetCandidatesPerRole ∧
      (resolveRecruitingConfig raw).targetCandidatesPerRole ≤ 2000 := by
  have hb := clampNumber_bounds raw.targetCandidatesPerRole 1 2000 300
    (by norm_num) (by norm_num) (by norm_num)
  have hq : ¬clampNumber raw.targetCandidatesPerRole 1 2000 300 < 0 := by
    push_neg
    linarith [hb.1]
  constructor
  · show (1 : ℤ) ≤ jsTrunc (clampNumber raw.targetCandidatesPerRole 1 2000 300)
    rw [jsTrunc, if_neg hq]
    exact Int.le_floor.mpr (by exact_mod_cast hb.1)
  · show jsTrunc (clampNumber raw.targetCandidatesPerRole 1 2000 300) ≤ 2000
    rw [jsTrunc, if_neg hq]
    calc ⌊clampNumber raw.targetCandidatesPerRole 1 2000 300⌋
        ≤ ⌊(2000 : ℚ)⌋ := Int.floor_le_floor hb.2
      _ = 2000 := by norm_num

/-- C4 counterexample: the claim says the effective `targetCandidates` is
`role.targetCandidates` clamped to `[1, 2000]`.  With an explicit
`role.targetCandidates = 5000` (and the default configuration), the code keeps
`5000`: only the configured default is clamped, the per-role value has no upper
clamp. -/
theorem targetCandidates_not_clamped_above :
    runTargetCandidates (some 5000) cfgEx.targetCandidatesPerRole = 5000 ∧
      ¬runTargetCandidates (some 5000) cfgEx.targetCandidatesPerRole ≤ 2000 := by
  have h : runTargetCandidates (some 5000) cfgEx.targetCandidatesPerRole = 5000 := by
    rw [runTargetCandidates]
    have : jsTrunc ((Option.some (5000 : ℚ)).getD (cfgEx.targetCandidatesPerRole : ℚ)) =
        5000 := by
      rw [Option.getD_some, jsTrunc, if_neg (by norm_num)]
      norm_num
    rw [this]
    exact max_eq_right (by norm_num)
  refine ⟨h, ?_⟩
  rw [h]
  norm_num

/-- C4 (amended): the effective `targetCandidates` of `run` equals
`max 1 ⌊role.targetCandidates⌋` when `role.targetCandidates` is present — a
lower clamp at 1 only, with no upper clamp — and defaults to the configured
`run.targetCandidatesPerRole` (itself clamped to `[1, 2000]`, default 300) when
absent. -/
theorem targetCandidates_amended (t : ℚ) (raw : RecruitingRawConfig) :
    runTargetCandidates (some t) (resolveRecruitingConfig raw).targetCandidatesPerRole =
        max 1 (jsTrunc t) ∧
      runTargetCandidates none (resolveRecruitingConfig raw).targetCandidatesPerRole =
        (resolveRecruitingConfig raw).targetCandidatesPerRole ∧
      1 ≤ (resolveRecruitingConfig raw).targetCandidatesPerRole ∧
      (resolveRecruitingConfig raw).targetCandidatesPerRole ≤ 2000 ∧
      (raw.targetCandidatesPerRole = none →
        runTargetCandidates none (resolveRecruitingConfig raw).targetCandidatesPerRole = 300) :=
  by
  obtain ⟨hlo, hhi⟩ := resolvedTargetCandidates_bounds raw
  have hnone : runTargetCandidates none (resolveRecruitingConfig raw).targetCandidatesPerRole =
      (resolveRecruitingConfig raw).targetCandidatesPerRole := by
    rw [runTargetCandidates, Option.getD_none]
    have hcast : jsTrunc ((((resolveRecruitingConfig raw).targetCandidatesPerRole : ℤ)) : ℚ) =
        (resolveRecruitingConfig raw).targetCandidatesPerRole := by
      rw [jsTrunc]
      rw [if_neg (by push_neg; exact_mod_cast le_trans (by norm_num) hlo)]
      exact Int.floor_intCast _
    rw [hcast]
    exact max_eq_right hlo
  refine ⟨rfl, hnone, hlo, hhi, fun hdef => ?_⟩
  rw [hnone]
  show jsTrunc (clampNumber raw.targetCandidatesPerRole 1 2000 300) = 300
  rw [hdef]
  show jsTrunc (300 : ℚ) = 300
  rw [jsTrunc, if_neg (by norm_num)]
  norm_num

/-- Closed witness for the amended C4: at `t = 5000` with the default raw
configuration, the effective target is `5000` when explicit and `300` when
absent. -/
theorem targetCandidates_amended_witness :
    runTargetCandidates (some 5000) (resolveRecruitingConfig rawConfigDefaults).targetCandidatesPerRole =
        max 1 (jsTrunc 5000) ∧
      runTargetCandidates none (resolveRecruitingConfig rawConfigDefaults).targetCandidatesPerRole =
        300 := by
  have h := targetCandidates_amended 5000 rawConfigDefaults
  exact ⟨h.1, h.2.2.2.2 rfl⟩

/-! ## C5: shortlist eligibility override -/

/-- An identity input with matching employer and location across LinkedIn and
GitHub but no links and no handles: the partial-context rule fires alone. -/
def identityInputMediumEx : IdentityResolutionInput :=
  { linkedin :=
      { providerId := some "p1"
        publicIdentifier := none
        profileUrl := none
        name := some "Alice"
        employer := some "Acme"
        location := some "Berlin" }
    github := some
      { handle := none
        url := none
        profileLinkedinUrl := none
        employer := some "acme"
        location := some "berlin" }
    x := none
    personalSite := none }

/-- `resolveIdentity` on the partial-context example: confidence `0.7`, band
`MEDIUM`, resolver-side eligibility `false`. -/
theorem resolveIdentity_mediumEx :
    resolveIdentity identityInputMediumEx =
      { confidence := 0.7
        band := .MEDIUM
        shortlistEligible := false
        reasons := ["context_partial_match"] } := by
  have h1 : identityRule1 identityInputMediumEx = false := by decide
  have h2 : identityRule2 identityInputMediumEx = false := by decide
  have h3 : identitySameEmployer identityInputMediumEx = true := by decide
  have h4 : identitySameLocation identityInputMediumEx = true := by decide
  have h5 : identityHandleMatch identityInputMediumEx = false := by decide
  rw [resolveIdentity]
  simp only [h1, h2, h3, h4, h5, Bool.true_and, Bool.and_false, Bool.false_and,
    Bool.and_true, Bool.or_false, Bool.true_or, Bool.false_or, if_false, if_true,
    Bool.false_eq_true, Bool.true_eq_false]
  norm_num [max_def, round3, jsRound, resolveBand]
  decide

/-- C5 counterexample: with `minConfidenceForShortlist = 0.6` and the
partial-context identity (confidence `0.7`, band `MEDIUM`), the pipeline's
persisted identity has `shortlistEligible = true`, while the claim's formula
`(band ∈ {CONFIRMED, HIGH}) ∧ (confidence ≥ threshold)` is false: the override
replaces the band rule instead of conjoining with it. -/
theorem pipeline_shortlistEligible_band_counterexample :
    (pipelineIdentity 0.6 identityInputMediumEx).shortlistEligible = true ∧
      ¬(((pipelineIdentity 0.6 identityInputMediumEx).band = IdentityBand.CONFIRMED ∨
          (pipelineIdentity 0.6 identityInputMediumEx).band = IdentityBand.HIGH) ∧
        0.6 ≤ (pipelineIdentity 0.6 identityInputMediumEx).confidence) := by
  have hres : pipelineIdentity 0.6 identityInputMediumEx =
      { confidence := 0.7
        band := .MEDIUM
        shortlistEligible := decide ((0.7 : ℚ) ≥ 0.6)
        reasons := ["context_partial_match"] } := by
    rw [pipelineIdentity, resolveIdentity_mediumEx]
  rw [hres]
  refine ⟨by norm_num, ?_⟩
  rintro ⟨h | h, -⟩ <;> cases h

/-- C5 (amended): for every identity input and configured threshold, the
identity the pipeline persists and scores has `band` equal to the banded form of
its `confidence` (the `resolveBand` thresholds ≥0.9 CONFIRMED, ≥0.8 HIGH, ≥0.6
MEDIUM, else LOW), the `confidence` produced by the resolver, and
`shortlistEligible = (confidence ≥ threshold)` — the band conjunct of the
original claim is dropped. -/
theorem pipeline_identity_band_and_threshold (threshold : ℚ)
    (input : IdentityResolutionInput) :
    (pipelineIdentity threshold input).band =
        resolveBand ((pipelineIdentity threshold input).confidence) ∧
      (pipelineIdentity threshold input).confidence = (resolveIdentity input).confidence ∧
      (pipelineIdentity threshold input).shortlistEligible =
        decide (threshold ≤ (pipelineIdentity threshold input).confidence) :=
  ⟨rfl, rfl, rfl⟩

/-! ## C6: weighted rubric total -/

/-- `clamp01` never goes below zero. -/
theorem clamp01_nonneg (v : ℚ) : 0 ≤ clamp01 v :=
  le_min (by norm_num) (le_max_left 0 v)

/-- `scoreFromSignals` never goes below zero. -/
theorem scoreFromSignals_nonneg (signals : List CandidateSignal) (key : String) :
    0 ≤ scoreFromSignals signals key := by
  rw [scoreFromSignals]
  split
  · exact le_refl (0 : ℚ)
  · exact clamp01_nonneg _

/-- `round3` keeps nonnegative values nonnegative. -/
theorem round3_nonneg {q : ℚ} (h : 0 ≤ q) : 0 ≤ round3 q := by
  rw [round3, jsRound]
  apply div_nonneg _ (by norm_num)
  exact_mod_cast Int.floor_nonneg.mpr (by linarith)

/-- On nonnegative inputs — the only inputs the scorer produces — the source's
`Math.round`-based `round3` is exactly the specification's half-away-from-zero
rounding. -/
theorem specRound3_eq_round3 {q : ℚ} (h : 0 ≤ q) : specRound3 q = round3 q := by
  rw [specRound3, if_neg (not_lt.mpr h), round3, jsRound]

/-- `round3` moves a value by at most `1/2000 ≤ 1/1000`. -/
theorem round3_abs_sub_le (q : ℚ) : |round3 q - q| ≤ 1 / 1000 := by
  rw [round3, jsRound]
  have h1 := Int.floor_le (q * 1000 + 1 / 2)
  have h2 := Int.lt_floor_add_one (q * 1000 + 1 / 2)
  rw [abs_le]
  constructor <;> [linarith; linarith]

/-- C6: every breakdown component of `computeCandidateScore` is the
half-away-from-zero 3-decimal rounding of its raw component, the total is the
rounding of `0.25·builder_activity + 0.25·ai_native_evidence +
0.20·technical_depth + 0.20·role_fit + 0.10·identity_confidence` over the
rounded components, and hence the total differs from the exact weighted sum of
the breakdown by at most `1e-3`. -/
theorem computeCandidateScore_rounded_weighted_total (p : ComputeScoreParams) :
    let s := computeCandidateScore p
    s.breakdown.builder_activity = specRound3 (scoreFromSignals p.signals "builder_activity") ∧
      s.breakdown.ai_native_evidence =
        specRound3 (max (scoreFromSignals p.signals "ai_native_evidence")
          (if hasAiEvidence p.evidence then 0.7 else 0)) ∧
      s.breakdown.technical_depth = specRound3 (scoreFromSignals p.signals "technical_depth") ∧
      s.breakdown.role_fit = specRound3 (scoreFromSignals p.signals "role_fit") ∧
      s.breakdown.identity_confidence = specRound3 (clamp01 p.identity.confidence) ∧
      s.total = specRound3 (0.25 * s.breakdown.builder_activity +
        0.25 * s.breakdown.ai_native_evidence + 0.2 * s.breakdown.technical_depth +
        0.2 * s.breakdown.role_fit + 0.1 * s.breakdown.identity_confidence) ∧
      |s.total - (0.25 * s.breakdown.builder_activity +
        0.25 * s.breakdown.ai_native_evidence + 0.2 * s.breakdown.technical_depth +
        0.2 * s.breakdown.role_fit + 0.1 * s.breakdown.identity_confidence)| ≤ 1 / 1000 := by
  intro s
  have hb0 : 0 ≤ scoreFromSignals p.signals "builder_activity" :=
    scoreFromSignals_nonneg _ _
  have ha0 : 0 ≤ max (scoreFromSignals p.signals "ai_native_evidence")
      (if hasAiEvidence p.evidence then (0.7 : ℚ) else 0) :=
    le_trans (scoreFromSignals_nonneg _ _) (le_max_left _ _)
  have ht0 : 0 ≤ scoreFromSignals p.signals "technical_depth" :=
    scoreFromSignals_nonneg _ _
  have hr0 : 0 ≤ scoreFromSignals p.signals "role_fit" :=
    scoreFromSignals_nonneg _ _
  have hi0 : 0 ≤ clamp01 p.identity.confidence := clamp01_nonneg _
  have hB : s.breakdown.builder_activity =
      round3 (scoreFromSignals p.signals "builder_activity") := rfl
  have hA : s.breakdown.ai_native_evidence =
      round3 (max (scoreFromSignals p.signals "ai_native_evidence")
        (if hasAiEvidence p.evidence then 0.7 else 0)) := rfl
  have hT : s.breakdown.technical_depth =
      round3 (scoreFromSignals p.signals "technical_depth") := rfl
  have hR : s.breakdown.role_fit = round3 (scoreFromSignals p.signals "role_fit") := rfl
  have hI : s.breakdown.identity_confidence =
      round3 (clamp01 p.identity.confidence) := rfl
  have hBnn : 0 ≤ s.breakdown.builder_activity := hB ▸ round3_nonneg hb0
  have hAnn : 0 ≤ s.breakdown.ai_native_evidence := hA ▸ round3_nonneg ha0
  have hTnn : 0 ≤ s.breakdown.technical_depth := hT ▸ round3_nonneg ht0
  have hRnn : 0 ≤ s.breakdown.role_fit := hR ▸ round3_nonneg hr0
  have hInn : 0 ≤ s.breakdown.identity_confidence := hI ▸ round3_nonneg hi0
  have hsum0 : 0 ≤ 0.25 * s.breakdown.builder_activity +
      0.25 * s.breakdown.ai_native_evidence + 0.2 * s.breakdown.technical_depth +
      0.2 * s.breakdown.role_fit + 0.1 * s.breakdown.identity_confidence := by
    nlinarith
  have hXX : s.breakdown.builder_activity * 0.25 + s.breakdown.ai_native_evidence * 0.25 +
      s.breakdown.technical_depth * 0.2 + s.breakdown.role_fit * 0.2 +
      s.breakdown.identity_confidence * 0.1 =
      0.25 * s.breakdown.builder_activity + 0.25 * s.breakdown.ai_native_evidence +
        0.2 * s.breakdown.technical_depth + 0.2 * s.breakdown.role_fit +
        0.1 * s.breakdown.identity_confidence := by ring
  refine ⟨?_, ?_, ?_, ?_, ?_, ?_, ?_⟩
  · rw [specRound3_eq_round3 hb0]; rfl
  · rw [specRound3_eq_round3 ha0]; rfl
  · rw [specRound3_eq_round3 ht0]; rfl
  · rw [specRound3_eq_round3 hr0]; rfl
  · rw [specRound3_eq_round3 hi0]; rfl
  · rw [specRound3_eq_round3 hsum0]
    show round3 (s.breakdown.builder_activity * 0.25 +
      s.breakdown.ai_native_evidence * 0.25 + s.breakdown.technical_depth * 0.2 +
      s.breakdown.role_fit * 0.2 + s.breakdown.identity_confidence * 0.1) = _
    exact congrArg round3 hXX
  · rw [← hXX]
    exact round3_abs_sub_le _

/-! ## C7: promotion guards -/

/-- After an upsert, the `(candidate, run)` review lookup finds a row carrying
exactly the upserted status, priority and notes. -/
theorem find?_upsertReview_aux (p : UpsertReviewParams) (now : Nat) (l : List ReviewRow)
    (h : l.any (fun r => r.candidateId == p.candidateId && r.runId == p.runId) = true) :
    ∃ r : ReviewRow,
      (l.map fun r =>
          if r.candidateId = p.candidateId ∧ r.runId = p.runId then
            { r with
              status := p.status
              priority := p.priority.getD 0
              notes := p.notes
              updatedBy := p.updatedBy
              updatedAt := now }
          else r).find?
          (fun r => r.candidateId == p.candidateId && r.runId == p.runId) = some r ∧
        r.status = p.status ∧ r.priority = p.priority.getD 0 ∧ r.notes = p.notes := by
  induction l with
  | nil => simp at h
  | cons a l ih =>
    by_cases ha : a.candidateId = p.candidateId ∧ a.runId = p.runId
    · refine ⟨{ a with status := p.status, priority := p.priority.getD 0, notes := p.notes, updatedBy := p.updatedBy, updatedAt := now }, ?_, rfl, rfl, rfl⟩
      simp only [List.map_cons, if_pos ha]
      exact List.find?_cons_of_pos _ (by simp [ha.1, ha.2])
    · have ha' : ((a.candidateId == p.candidateId) && (a.runId == p.runId)) = false := by
        rcases not_and_or.mp ha with h1 | h1 <;> simp [h1]
      have hl : l.any (fun r => r.candidateId == p.candidateId && r.runId == p.runId) = true := by
        simpa [List.any_cons, ha'] using h
      obtain ⟨r, hf, hs, hpr, hn⟩ := ih hl
      refine ⟨r, ?_, hs, hpr, hn⟩
      simp only [List.map_cons, if_neg ha]
      rw [List.find?_cons_of_neg _ (by simp [ha']), hf]

/-- Store-level form: `getReviewStatus` after `upsertReviewStatus` returns the
upserted row. -/
theorem getReviewStatus_after_upsert (st : StoreState) (now : Nat) (p : UpsertReviewParams) :
    ∃ r : ReviewRow,
      getReviewStatus (upsertReviewStatus st now p) p.candidateId p.runId = some r ∧
        r.status = p.status ∧ r.priority = p.priority.getD 0 ∧ r.notes = p.notes := by
  rw [upsertReviewStatus]
  split
  case isTrue h =>
    rw [getReviewStatus]
    exact find?_upsertReview_aux p now st.reviews h
  case isFalse h =>
    rw [getReviewStatus]
    have hnone :
        st.reviews.find? (fun r => r.candidateId == p.candidateId && r.runId == p.runId) =
          none := by
      rw [List.find?_eq_none]
      intro x hx hc
      exact h (List.any_eq_true.mpr ⟨x, hx, hc⟩)
    refine ⟨{ candidateId := p.candidateId, runId := p.runId, status := p.status, priority := p.priority.getD 0, notes := p.notes, updatedBy := p.updatedBy, createdAt := now, updatedAt := now }, ?_, rfl, rfl, rfl⟩
    simp only [List.find?_append, hnone, Option.none_or]
    exact List.find?_cons_of_pos _ (by simp)

/-- C7: `promoteCandidate` rejects (returning `success = false` with an error
and writing to no table) when fewer than `minProofLinks` proof links are
supplied or when a promotion already exists for the `(candidate, run)` pair;
otherwise it appends exactly one promotion row, upserts the review to
`promoted_shortlist`, leaves every other table unchanged and returns
`success = true`.  The resolved default of `minProofLinks` is 2. -/
theorem promoteCandidate_guards (cfg : RecruitingConfig) (st : StoreState) (now : Nat)
    (p : PromoteParams) :
    ((p.evidenceLinks.length : ℤ) < cfg.minProofLinks →
      (servicePromoteCandidate cfg st now p).1.success = false ∧
        (servicePromoteCandidate cfg st now p).1.error ≠ none ∧
        (servicePromoteCandidate cfg st now p).2 = st) ∧
      (¬(p.evidenceLinks.length : ℤ) < cfg.minProofLinks →
        getPromotion st p.candidateId p.runId ≠ none →
        (servicePromoteCandidate cfg st now p).1.success = false ∧
          (servicePromoteCandidate cfg st now p).1.error ≠ none ∧
          (servicePromoteCandidate cfg st now p).2 = st) ∧
      (¬(p.evidenceLinks.length : ℤ) < cfg.minProofLinks →
        getPromotion st p.candidateId p.runId = none →
        (servicePromoteCandidate cfg st now p).1 = { success := true, error := none } ∧
          (servicePromoteCandidate cfg st now p).2.promotions = st.promotions ++
            [{ candidateId := p.candidateId
               runId := p.runId
               promotionReason := p.promotionReason
               confidenceOverride := p.confidenceOverride
               outreachAngle := p.outreachAngle
               proofLinks := p.evidenceLinks
               promotedAt := now
               promotedBy := none }] ∧
          (∃ r : ReviewRow,
            getReviewStatus (servicePromoteCandidate cfg st now p).2 p.candidateId p.runId =
              some r ∧ r.status = .promoted_shortlist) ∧
          (servicePromoteCandidate cfg st now p).2.runs = st.runs ∧
          (servicePromoteCandidate cfg st now p).2.runRoles = st.runRoles ∧
          (servicePromoteCandidate cfg st now p).2.candidates = st.candidates ∧
          (servicePromoteCandidate cfg st now p).2.sourceRecords = st.sourceRecords ∧
          (servicePromoteCandidate cfg st now p).2.identities = st.identities ∧
          (servicePromoteCandidate cfg st now p).2.signals = st.signals ∧
          (servicePromoteCandidate cfg st now p).2.scores = st.scores ∧
          (servicePromoteCandidate cfg st now p).2.evidence = st.evidence ∧
          (servicePromoteCandidate cfg st now p).2.failures = st.failures ∧
          (servicePromoteCandidate cfg st now p).2.verifications = st.verifications) ∧
      (resolveRecruitingConfig rawConfigDefaults).minProofLinks = 2 := by
  refine ⟨?_, ?_, ?_, ?_⟩
  · intro hlt
    simp only [servicePromoteCandidate]
    rw [if_pos hlt]
    exact ⟨rfl, by simp, rfl⟩
  · intro hge hex
    simp only [servicePromoteCandidate]
    rw [if_neg hge]
    rcases hp : getPromotion st p.candidateId p.runId with _ | pr
    · exact absurd hp hex
    · exact ⟨rfl, by simp, rfl⟩
  · intro hge hnone
    simp only [servicePromoteCandidate]
    rw [if_neg hge, hnone]
    refine ⟨rfl, ?_, ?_, ?_, ?_, ?_, ?_, ?_, ?_, ?_, ?_, ?_, ?_⟩
    · simp only [storePromoteCandidate, upsertReviewStatus]
      split <;> rfl
    · obtain ⟨r, hr, hs, -, -⟩ := getReviewStatus_after_upsert
        { st with promotions := st.promotions ++
            [{ candidateId := p.candidateId, runId := p.runId,
               promotionReason := p.promotionReason,
               confidenceOverride := p.confidenceOverride,
               outreachAngle := p.outreachAngle, proofLinks := p.evidenceLinks,
               promotedAt := now, promotedBy := none }] } now
        { candidateId := p.candidateId, runId := p.runId, status := .promoted_shortlist,
          priority := none, notes := none, updatedBy := none }
      exact ⟨r, hr, hs⟩
    all_goals simp only [storePromoteCandidate, upsertReviewStatus]; split <;> rfl
  · norm_num [resolveRecruitingConfig, rawConfigDefaults, clampNumber, jsTrunc]

/-- A promotion attempt with exactly two proof links against the empty store. -/
def promoteParamsEx : PromoteParams :=
  { runId := "r1"
    candidateId := "c1"
    promotionReason := "strong evidence"
    evidenceLinks := ["https://a.example", "https://b.example"]
    confidenceOverride := none
    outreachAngle := none }

/-- Closed witness for C7: with the default configuration (minProofLinks 2), two
proof links and no prior promotion, the call succeeds, appends one promotion row
and promotes the review. -/
theorem promoteCandidate_guards_witness :
    (servicePromoteCandidate cfgEx emptyStore 7 promoteParamsEx).1 =
        { success := true, error := none } ∧
      (servicePromoteCandidate cfgEx emptyStore 7 promoteParamsEx).2.promotions.length = 1 ∧
      (∃ r : ReviewRow,
        getReviewStatus (servicePromoteCandidate cfgEx emptyStore 7 promoteParamsEx).2
            "c1" "r1" = some r ∧ r.status = .promoted_shortlist) := by
  have hmin : cfgEx.minProofLinks = 2 := by
    show (resolveRecruitingConfig rawConfigDefaults).minProofLinks = 2
    norm_num [resolveRecruitingConfig, rawConfigDefaults, clampNumber, jsTrunc]
  have h := (promoteCandidate_guards cfgEx emptyStore 7 promoteParamsEx).2.2.1
    (by rw [hmin]; norm_num [promoteParamsEx]) rfl
  refine ⟨h.1, ?_, h.2.2.1⟩
  rw [h.2.1]
  rfl

/-! ## C8: verification submission -/

/-- `dropWhile` over an append, by cases on whether the first part is consumed
entirely. -/
theorem dropWhile_append_cases [DecidableEq α] (q : α → Bool) (l₁ l₂ : List α) :
    (l₁ ++ l₂).dropWhile q =
      if l₁.dropWhile q = [] then l₂.dropWhile q else l₁.dropWhile q ++ l₂ := by
  induction l₁ with
  | nil => simp
  | cons a l ih =>
    by_cases ha : q a = true
    · simpa [List.dropWhile_cons, ha] using ih
    · simp [List.dropWhile_cons, ha]

/-- Trimming `C ++ " " ++ l` keeps the sentence `C` as a prefix whenever `C`
neither starts nor ends in whitespace. -/
theorem trimChars_append (C l : List Char) (hC : C ≠ [])
    (hhead : C.dropWhile Char.isWhitespace = C)
    (hlast : C.reverse.dropWhile Char.isWhitespace = C.reverse) :
    ∃ t : List Char, trimChars (C ++ (' ' :: l)) = C ++ t := by
  rw [trimChars]
  have hleft : (C ++ (' ' :: l)).dropWhile Char.isWhitespace = C ++ (' ' :: l) := by
    rw [dropWhile_append_cases, hhead, if_neg hC]
  rw [hleft, List.reverse_append, dropWhile_append_cases]
  by_cases hdw : (' ' :: l).reverse.dropWhile Char.isWhitespace = []
  · refine ⟨[], ?_⟩
    rw [if_pos hdw, hlast, List.reverse_reverse, List.append_nil]
  · refine ⟨((' ' :: l).reverse.dropWhile Char.isWhitespace).reverse, ?_⟩
    rw [if_neg hdw, List.reverse_append, List.reverse_reverse]

/-- String-level form: `jsTrim (pre ++ " " ++ s)` keeps the sentence `pre` as a
prefix. -/
theorem jsTrim_sentence_prefix (pre s : String) (hC : pre.data ≠ [])
    (hhead : pre.data.dropWhile Char.isWhitespace = pre.data)
    (hlast : pre.data.reverse.dropWhile Char.isWhitespace = pre.data.reverse) :
    ∃ t : String, jsTrim (pre ++ " " ++ s) = pre ++ t := by
  obtain ⟨tl, htl⟩ := trimChars_append pre.data s.data hC hhead hlast
  refine ⟨⟨tl⟩, ?_⟩
  have hdata : (pre ++ " " ++ s).data = pre.data ++ (' ' :: s.data) := by
    simp [String.data_append]
  show (⟨trimChars (pre ++ " " ++ s).data⟩ : String) = pre ++ ⟨tl⟩
  rw [hdata, htl]
  rfl

/-- C8: `submitVerification` appends exactly one verification row recording the
cross-platform identity confidence as `identityConfidenceBefore` (method
`browser`); then a `confirmed` outcome upserts the review to
`promoted_shortlist` with notes prefixed "Verified via browser.", a `rejected`
outcome upserts it to `rejected` with notes prefixed "Verification rejected.",
and an `inconclusive` outcome leaves the review table untouched. -/
theorem submitVerification_spec (st : StoreState) (now : Nat)
    (p : SubmitVerificationParams) :
    let st' := serviceSubmitVerification st now p
    st'.verifications = st.verifications ++
        [{ candidateId := p.candidateId
           runId := p.runId
           method := "browser"
           outcome := p.outcome
           identityConfidenceBefore := crossPlatformConfidenceBefore st p.candidateId
           identityConfidenceAfter := p.identityConfidenceAfter
           proofLinks := p.proofLinks
           notes := p.notes
           createdAt := now }] ∧
      (p.outcome = .confirmed →
        ∃ r : ReviewRow, getReviewStatus st' p.candidateId p.runId = some r ∧
          r.status = .promoted_shortlist ∧
          ∃ t : String, r.notes = some ("Verified via browser." ++ t)) ∧
      (p.outcome = .rejected →
        ∃ r : ReviewRow, getReviewStatus st' p.candidateId p.runId = some r ∧
          r.status = .rejected ∧
          ∃ t : String, r.notes = some ("Verification rejected." ++ t)) ∧
      (p.outcome = .inconclusive → st'.reviews = st.reviews) := by
  intro st'
  refine ⟨?_, ?_, ?_, ?_⟩
  · show (serviceSubmitVerification st now p).verifications = _
    cases h : p.outcome <;>
      simp only [serviceSubmitVerification, h, storeSubmitVerification, upsertReviewStatus] <;>
      first
        | rfl
        | (split <;> rfl)
  · intro h
    show ∃ r : ReviewRow, getReviewStatus (serviceSubmitVerification st now p) _ _ = _ ∧ _
    simp only [serviceSubmitVerification, h]
    obtain ⟨r, hr, hs, -, hn⟩ := getReviewStatus_after_upsert
      (storeSubmitVerification st now
        { candidateId := p.candidateId, runId := p.runId, method := "browser", outcome := .confirmed, identityConfidenceBefore := crossPlatformConfidenceBefore st p.candidateId, identityConfidenceAfter := p.identityConfidenceAfter, proofLinks := p.proofLinks, notes := p.notes })
      now
      { candidateId := p.candidateId, runId := p.runId, status := .promoted_shortlist, priority := none, notes := some (jsTrim ("Verified via browser. " ++ p.notes.getD "")), updatedBy := none }
    obtain ⟨t, ht⟩ := jsTrim_sentence_prefix "Verified via browser." (p.notes.getD "")
      (by decide) (by decide) (by decide)
    refine ⟨r, hr, hs, t, ?_⟩
    have hlit : ("Verified via browser. " : String) = "Verified via browser." ++ " " := rfl
    rw [hn, hlit, ht]
  · intro h
    show ∃ r : ReviewRow, getReviewStatus (serviceSubmitVerification st now p) _ _ = _ ∧ _
    simp only [serviceSubmitVerification, h]
    obtain ⟨r, hr, hs, -, hn⟩ := getReviewStatus_after_upsert
      (storeSubmitVerification st now
        { candidateId := p.candidateId, runId := p.runId, method := "browser", outcome := .rejected, identityConfidenceBefore := crossPlatformConfidenceBefore st p.candidateId, identityConfidenceAfter := p.identityConfidenceAfter, proofLinks := p.proofLinks, notes := p.notes })
      now
      { candidateId := p.candidateId, runId := p.runId, status := .rejected, priority := none, notes := some (jsTrim ("Verification rejected. " ++ p.notes.getD "")), updatedBy := none }
    obtain ⟨t, ht⟩ := jsTrim_sentence_prefix "Verification rejected." (p.notes.getD "")
      (by decide) (by decide) (by decide)
    refine ⟨r, hr, hs, t, ?_⟩
    have hlit : ("Verification rejected. " : String) = "Verification rejected." ++ " " := rfl
    rw [hn, hlit, ht]
  · intro h
    show (serviceSubmitVerification st now p).reviews = st.reviews
    simp only [serviceSubmitVerification, h, storeSubmitVerification]

/-- A confirmed browser verification for candidate `"c1"` in run `"r1"`. -/
def subVerParamsEx : SubmitVerificationParams :=
  { runId := "r1"
    candidateId := "c1"
    outcome := .confirmed
    identityConfidenceAfter := some 0.95
    proofLinks := ["https://github.example/alice"]
    notes := some "checked" }

/-- Closed witness for C8: a confirmed verification against the empty store
appends one verification row and promotes the review with the
"Verified via browser." prefix. -/
theorem submitVerification_spec_witness :
    (serviceSubmitVerification emptyStore 9 subVerParamsEx).verifications.length = 1 ∧
      (∃ r : ReviewRow,
        getReviewStatus (serviceSubmitVerification emptyStore 9 subVerParamsEx) "c1" "r1" =
            some r ∧
          r.status = .promoted_shortlist ∧
          ∃ t : String, r.notes = some ("Verified via browser." ++ t)) := by
  have h := submitVerification_spec emptyStore 9 subVerParamsEx
  exact ⟨by rw [h.1]; rfl, h.2.1 rfl⟩

/-! ## C10: resolver confidence invariants -/

/-- C10: `resolveIdentity` always produces a confidence in the finite set
`{0, 0.7, 0.82, 0.9, 0.95}`; the reasons list is never empty and contains
`unconfirmed_no_strong_match` exactly when the confidence is `0`; band
`CONFIRMED` arises only at the link-rule scores `0.9`/`0.95` and `MEDIUM` only
at the partial-context score `0.7`. -/
theorem resolveIdentity_confidence_invariants (input : IdentityResolutionInput) :
    ((resolveIdentity input).confidence = 0 ∨ (resolveIdentity input).confidence = 0.7 ∨
      (resolveIdentity input).confidence = 0.82 ∨ (resolveIdentity input).confidence = 0.9 ∨
      (resolveIdentity input).confidence = 0.95) ∧
      (resolveIdentity input).reasons ≠ [] ∧
      ("unconfirmed_no_strong_match" ∈ (resolveIdentity input).reasons ↔
        (resolveIdentity input).confidence = 0) ∧
      ((resolveIdentity input).band = .CONFIRMED →
        (resolveIdentity input).confidence = 0.9 ∨ (resolveIdentity input).confidence = 0.95) ∧
      ((resolveIdentity input).band = .MEDIUM → (resolveIdentity input).confidence = 0.7) := by
  cases h1 : identityRule1 input <;>
    cases h2 : identityRule2 input <;>
      cases h3 : identitySameEmployer input <;>
        cases h4 : identitySameLocation input <;>
          cases h5 : identityHandleMatch input <;>
            simp only [resolveIdentity, h1, h2, h3, h4, h5, Bool.true_and, Bool.false_and,
              Bool.and_true, Bool.and_false, Bool.true_or, Bool.false_or, Bool.or_true,
              Bool.or_false, Bool.and_self, Bool.or_self, if_true, if_false] <;>
            norm_num [max_def, round3, jsRound, resolveBand] <;>
            decide

/-- Closed witness for C10 at the partial-context example: confidence `0.7` and
no `unconfirmed_no_strong_match` reason. -/
theorem resolveIdentity_confidence_invariants_witness :
    (resolveIdentity identityInputMediumEx).confidence = 0.7 ∧
      "unconfirmed_no_strong_match" ∉ (resolveIdentity identityInputMediumEx).reasons := by
  have h := resolveIdentity_confidence_invariants identityInputMediumEx
  constructor
  · rw [resolveIdentity_mediumEx]
  · intro hmem
    have hzero := h.2.2.1.mp hmem
    rw [resolveIdentity_mediumEx] at hzero
    norm_num at hzero

/-! ## C9: getResults -/

/-- Sort key of a returned evidence entry (`relevance DESC`, `NULL`s last). -/
def entryRelKey (e : TopEvidenceEntry) : WithBot ℚ :=
  match e.relevance with
  | none => ⊥
  | some q => (q : WithBot ℚ)

/-- Well-formedness reflected from the schema: `candidate_evidence_links` is
`UNIQUE (candidate_id, run_id, url)`. -/
def EvidenceUrlsUnique (st : StoreState) : Prop :=
  st.evidence.Pairwise fun a b =>
    a.candidateId = b.candidateId → a.runId = b.runId → a.url ≠ b.url

/-- The per-row evidence list of `getResults`: at most 3 entries, URL-distinct,
ordered by relevance descending (`NULL`s last). -/
theorem evidenceTop3_spec (st : StoreState) (hwf : EvidenceUrlsUnique st)
    (cid rid : String) :
    (evidenceTop3 st cid rid).length ≤ 3 ∧
      ((evidenceTop3 st cid rid).map (·.url)).Nodup ∧
      (evidenceTop3 st cid rid).Pairwise (fun a b => entryRelKey b ≤ entryRelKey a) := by
  have hsorted :
      ((st.evidence.filter fun e => e.candidateId == cid && e.runId == rid).insertionSort
          evidenceDesc).Sorted evidenceDesc :=
    List.sorted_insertionSort evidenceDesc _
  have htake :
      List.Sublist
        (((st.evidence.filter fun e =>
            e.candidateId == cid && e.runId == rid).insertionSort evidenceDesc).take 3)
        ((st.evidence.filter fun e =>
            e.candidateId == cid && e.runId == rid).insertionSort evidenceDesc) :=
    List.take_sublist 3 _
  refine ⟨?_, ?_, ?_⟩
  · rw [evidenceTop3, List.length_map, List.length_take]
    exact min_le_left _ _
  · rw [evidenceTop3, List.map_map]
    have hpwF :
        (st.evidence.filter fun e => e.candidateId == cid && e.runId == rid).Pairwise
          (fun a b => a.url ≠ b.url) := by
      have h1 :
          (st.evidence.filter fun e => e.candidateId == cid && e.runId == rid).Pairwise
            (fun a b => a.candidateId = b.candidateId → a.runId = b.runId → a.url ≠ b.url) :=
        hwf.sublist (List.filter_sublist _)
      refine h1.imp_of_mem ?_
      intro a b ha hb hab
      have ha' := (List.mem_filter.mp ha).2
      have hb' := (List.mem_filter.mp hb).2
      simp only [Bool.and_eq_true, beq_iff_eq] at ha' hb'
      exact hab (ha'.1.trans hb'.1.symm) (ha'.2.trans hb'.2.symm)
    have hpwSorted :
        ((st.evidence.filter fun e => e.candidateId == cid && e.runId == rid).insertionSort
            evidenceDesc).Pairwise (fun a b => a.url ≠ b.url) :=
      ((List.perm_insertionSort evidenceDesc _).pairwise_iff
        (fun h => Ne.symm h)).mpr hpwF
    exact List.Pairwise.map _ (fun a b h => h) (hpwSorted.sublist htake)
  · rw [evidenceTop3]
    refine List.Pairwise.map _ ?_ (hsorted.sublist htake)
    intro a b h
    rcases h with h | ⟨h, -⟩
    · exact le_of_lt h
    · exact le_of_eq h.symm

/-- C9 (amended): `getResults` returns rows ordered by total score descending,
bounded by `max(1, ⌊limit⌋)` — the source applies `Math.max(1, Math.trunc(…))`
to the limit, so the bound is not `limit` itself — partitioned into `shortlist`
and `reviewQueue` by the stored `shortlistEligible` flag; every row carries at
most 3 URL-distinct evidence links ordered by `(relevance DESC, createdAt
DESC)`; and the run's `summary_json` diagnostics are attached to `meta`. -/
theorem getResults_spec (st : StoreState) (now : Nat) (runId : String) (limit : ℚ)
    (hwf : EvidenceUrlsUnique st) :
    (getResultsRows st runId limit).Pairwise rowScoreDesc ∧
      (getResultsRows st runId limit).length ≤ (max 1 (jsTrunc limit)).toNat ∧
      (getResults st now runId limit).shortlist =
        (getResultsRows st runId limit).filter (·.shortlistEligible) ∧
      (getResults st now runId limit).reviewQueue =
        (getResultsRows st runId limit).filter (fun r => !r.shortlistEligible) ∧
      (getResults st now runId limit).meta.totalCandidates =
        (getResultsRows st runId limit).length ∧
      (∀ r ∈ getResultsRows st runId limit,
        r.topEvidence.length ≤ 3 ∧
          (r.topEvidence.map (·.url)).Nodup ∧
          r.topEvidence.Pairwise (fun a b => entryRelKey b ≤ entryRelKey a)) ∧
      (getResults st now runId limit).meta.counts =
        ((st.runs.find? fun x => x.id == runId).bind (·.summary)).map (·.counts) ∧
      (getResults st now runId limit).meta.errorsByStage =
        ((st.runs.find? fun x => x.id == runId).bind (·.summary)).map (·.errorsByStage) ∧
      (getResults st now runId limit).meta.searchQueryUsed =
        ((st.runs.find? fun x => x.id == runId).bind (·.summary)).map (·.searchQueryUsed) ∧
      (getResults st now runId limit).meta.modes =
        ((st.runs.find? fun x => x.id == runId).bind (·.summary)).map (·.modes) ∧
      (getResults st now runId limit).meta.accountHealth =
        ((st.runs.find? fun x => x.id == runId).bind (·.summary)).map (·.accountHealth) ∧
      (getResults st now runId limit).meta.failure =
        ((st.runs.find? fun x => x.id == runId).bind (·.summary)).bind (·.failure) := by
  refine ⟨?_, ?_, ?_, ?_, rfl, ?_, rfl, rfl, rfl, rfl, rfl, rfl⟩
  · exact (List.sorted_insertionSort rowScoreDesc _).sublist (List.take_sublist _ _)
  · rw [getResultsRows, List.length_take]
    exact min_le_left _ _
  · show ((getResultsRows st runId limit).partition (·.shortlistEligible)).1 = _
    rw [List.partition_eq_filter_filter]
  · show ((getResultsRows st runId limit).partition (·.shortlistEligible)).2 = _
    rw [List.partition_eq_filter_filter]
    rfl
  · intro r hr
    have hr1 : r ∈ ((st.scores.filter fun s => s.runId == runId).filterMap
        (resultRowOfScore st runId)).insertionSort rowScoreDesc :=
      (List.take_sublist _ _).subset hr
    have hr2 : r ∈ (st.scores.filter fun s => s.runId == runId).filterMap
        (resultRowOfScore st runId) := (List.mem_insertionSort _).mp hr1
    obtain ⟨s, -, hsr⟩ := List.mem_filterMap.mp hr2
    rw [resultRowOfScore] at hsr
    obtain ⟨c, -, hcr⟩ := Option.map_eq_some'.mp hsr
    have hre : r.topEvidence = evidenceTop3 st s.candidateId runId := by
      rw [← hcr]
    rw [hre]
    exact evidenceTop3_spec st hwf s.candidateId runId

/-- A candidate row for the `getResults` examples. -/
def cRowEx : CandidateRow :=
  { id := "c1"
    providerId := some "p1"
    publicIdentifier := none
    normalizedProfileUrlHash := none
    fullName := some "Alice"
    headline := none
    location := none
    currentCompany := none
    currentRole := none
    firstSeenAt := 0
    lastSeenAt := 0 }

/-- A score row for run `"r"` on that candidate. -/
def scoreRowEx : ScoreRow :=
  { candidateId := "c1"
    runId := "r"
    totalScore := 0.5
    breakdown :=
      { builder_activity := 0
        ai_native_evidence := 0
        technical_depth := 0
        role_fit := 0
        identity_confidence := 0.5 }
    concerns := []
    shortlistEligible := true
    outreachAngle := some "angle"
    createdAt := 1 }

/-- A store with exactly one scored candidate in run `"r"`. -/
def stResultsEx : StoreState :=
  { emptyStore with candidates := [cRowEx], scores := [scoreRowEx] }

/-- C9 counterexample: the claim says the returned rows are bounded by `limit`.
At `limit = 0` with one scored candidate, the code's
`LIMIT max(1, trunc(limit))` returns one row, exceeding the claimed bound of
zero. -/
theorem getResults_limit_counterexample :
    (getResults stResultsEx 99 "r" 0).meta.totalCandidates = 1 ∧
      ¬(getResults stResultsEx 99 "r" 0).meta.totalCandidates ≤ 0 := by
  have hn : (max 1 (jsTrunc (0 : ℚ))).toNat = 1 := by
    norm_num [jsTrunc]
  have h : (getResults stResultsEx 99 "r" 0).meta.totalCandidates = 1 := by
    show (getResultsRows stResultsEx "r" 0).length = 1
    rw [getResultsRows, hn]
    rfl
  exact ⟨h, by rw [h]; norm_num⟩

/-- Closed witness for the amended C9 at the one-candidate store with
`limit = 0`: the rows obey the `max(1, ⌊limit⌋)` bound and the shortlist is the
eligible filter of the rows. -/
theorem getResults_spec_witness :
    (getResultsRows stResultsEx "r" 0).length ≤ (max 1 (jsTrunc 0)).toNat ∧
      (getResults stResultsEx 99 "r" 0).shortlist =
        (getResultsRows stResultsEx "r" 0).filter (·.shortlistEligible) := by
  have h := getResults_spec stResultsEx 99 "r" 0 List.Pairwise.nil
  exact ⟨h.2.1, h.2.2.1⟩
